import Mathlib

/-!
Habana AI operator: the Module sub-reconciler.

A shallow embedding of `internal/module/module.go` and theorems about it.

Go pointers that may be nil are `Option`; Go maps are association lists read
through `GoMap.get` and written through `GoMap.set`; a Go `error` is an
`Option Error` (`none` is the nil error).  Functions that mutate their
arguments return the arguments' new values, and every call made to a
collaborator (the store client, the owner-reference helper) is appended to a
trace of `Call`s.
-/

set_option autoImplicit false

namespace Habana

/-! ## Go maps -/

/-- A Go `map[string]string` (non-nil).  The first pair with a given key is the
binding of that key. -/
abbrev GoMap := List (String × String)

/-- The map read `m[k]`: `none` when the key is absent. -/
def GoMap.get : GoMap → String → Option String
  | [], _ => none
  | (k', v') :: t, k => if k' = k then some v' else GoMap.get t k

/-- The map assignment `m[k] = v`: overwrites the binding of `k` when there is
one, adds it otherwise. -/
def GoMap.set : GoMap → String → String → GoMap
  | [], k, v => [(k, v)]
  | (k', v') :: t, k, v => if k' = k then (k, v) :: t else (k', v') :: GoMap.set t k v

/-! ## Errors -/

/-- A Go error value.
* `new msg`: `errors.New(msg)`, or `fmt.Errorf` without a `%w` verb;
* `status reason code msg`: an API status error of `k8s.io/apimachinery`, with
  its reason and its HTTP code;
* `wrap msg err`: `fmt.Errorf` with a `%w` verb, `msg` being the whole
  formatted message and `err` the wrapped error;
* `alreadyOwned msg`: the `AlreadyOwnedError` of controller-runtime. -/
inductive Error where
  | new (msg : String)
  | status (reason : String) (code : Nat) (msg : String)
  | wrap (msg : String) (err : Error)
  | alreadyOwned (msg : String)
  deriving DecidableEq, Repr

/-- The method `Error()` of a Go error: its message. -/
def Error.message : Error → String
  | .new msg => msg
  | .status _ _ msg => msg
  | .wrap msg _ => msg
  | .alreadyOwned msg => msg

/-- The method `Unwrap()` as seen by `errors.Unwrap`. -/
def Error.Unwrap : Error → Option Error
  | .wrap _ err => some err
  | _ => none

/-- The reason `metav1.StatusReasonNotFound`. -/
def StatusReasonNotFound : String := "NotFound"

/-- The reasons `knownReasons` of `apierrors`: the reasons the API server
itself gives. -/
def knownReasons : List String :=
  ["Unauthorized", "Forbidden", "NotFound", "AlreadyExists", "Conflict", "Gone", "Invalid",
   "ServerTimeout", "Timeout", "TooManyRequests", "BadRequest", "MethodNotAllowed",
   "NotAcceptable", "RequestEntityTooLarge", "UnsupportedMediaType", "InternalError",
   "Expired", "ServiceUnavailable"]

/-- The function `reasonAndCodeForError` of `apierrors`: reason and code of the
first status error of the wrap chain (`errors.As`); the unknown reason, which
is the empty string, and the code 0 when there is none. -/
def reasonAndCodeForError : Error → String × Nat
  | .status reason code _ => (reason, code)
  | .wrap _ err => reasonAndCodeForError err
  | _ => ("", 0)

/-- The predicate `apierrors.IsNotFound` on a non-nil error: the reason is
NotFound, or the reason is not a known one and the code is 404. -/
def IsNotFoundErr (err : Error) : Bool :=
  let rc := reasonAndCodeForError err
  if rc.1 = StatusReasonNotFound then true
  else if rc.1 ∉ knownReasons ∧ rc.2 = 404 then true
  else false

/-- The predicate `apierrors.IsNotFound`; false on the nil error. -/
def IsNotFound : Option Error → Bool
  | none => false
  | some e => IsNotFoundErr e

/-- The substring test used on error messages (`strings.Contains`). -/
def Contains (s sub : String) : Prop := sub.data <:+: s.data

instance (s sub : String) : Decidable (Contains s sub) := by
  unfold Contains; infer_instance

/-! ## API objects -/

/-- A `schema.GroupVersionKind`. -/
structure GroupVersionKind where
  Group : String
  Version : String
  Kind : String
  deriving DecidableEq, Repr

/-- A `metav1.OwnerReference`; `APIVersion` is kept split in group and
version. -/
structure OwnerReference where
  Group : String
  Version : String
  Kind : String
  Name : String
  UID : String
  Controller : Option Bool
  BlockOwnerDeletion : Option Bool
  deriving DecidableEq, Repr

/-- The fields of `metav1.ObjectMeta` the operator reads or writes. -/
structure ObjectMeta where
  Name : String := ""
  Namespace : String := ""
  UID : String := ""
  Generation : Nat := 0
  DeletionTimestamp : Option Nat := none
  Finalizers : List String := []
  OwnerReferences : List OwnerReference := []
  deriving DecidableEq, Repr

/-- The type `hlaiv1alpha1.DeviceConfigSpec`; a nil `NodeSelector` is `none`. -/
structure DeviceConfigSpec where
  DriverImage : String := ""
  DriverVersion : String := ""
  NodeSelector : Option GoMap := none
  deriving DecidableEq, Repr

/-- The type `hlaiv1alpha1.DeviceConfig` (its status is not used by the Module
sub-reconciler). -/
structure DeviceConfig where
  ObjectMeta : ObjectMeta := {}
  Spec : DeviceConfigSpec := {}
  deriving DecidableEq, Repr

/-- The promoted field `cr.Name`. -/
abbrev DeviceConfig.Name (cr : DeviceConfig) : String := cr.ObjectMeta.Name

/-- The promoted field `cr.Namespace`. -/
abbrev DeviceConfig.Namespace (cr : DeviceConfig) : String := cr.ObjectMeta.Namespace

/-- Modelled from the spec: the accessor `(*DeviceConfig).GetNodeSelector` of
`api/v1alpha1`, which is not among the sources.  The spec calls its result
"DeviceConfig's `nodeSelector`": the map of `Spec.NodeSelector` itself, and an
empty map when that field is nil (`SetDesiredModule` assigns into the result,
which a nil map does not allow). -/
def DeviceConfig.GetNodeSelector (cr : DeviceConfig) : GoMap :=
  match cr.Spec.NodeSelector with
  | some sel => sel
  | none => []

/-- A write through the map returned by `GetNodeSelector`, seen from the
DeviceConfig: a non-nil `Spec.NodeSelector` is that very map, so it shows the
write; a nil one stays nil, the write going to the fresh map. -/
def DeviceConfig.withNodeSelector (cr : DeviceConfig) (sel : GoMap) : DeviceConfig :=
  match cr.Spec.NodeSelector with
  | some _ => { cr with Spec := { cr.Spec with NodeSelector := some sel } }
  | none => cr

/-- A `corev1.PullPolicy`. -/
abbrev PullPolicy := String

/-- The constant `corev1.PullAlways`. -/
def PullAlways : PullPolicy := "Always"

/-- A `kmmv1beta1.KernelMapping`; `Literal` is a field the operator leaves at
its zero value. -/
structure KernelMapping where
  ContainerImage : String := ""
  Literal : String := ""
  Regexp : String := ""
  deriving DecidableEq, Repr

/-- A `kmmv1beta1.ModprobeSpec`; `DirName` is left at its zero value. -/
structure ModprobeSpec where
  ModuleName : String := ""
  DirName : String := ""
  FirmwarePath : String := ""
  deriving DecidableEq, Repr

/-- A `kmmv1beta1.ModuleLoaderContainerSpec`; `ContainerImage` is left at its
zero value. -/
structure ModuleLoaderContainerSpec where
  ContainerImage : String := ""
  ImagePullPolicy : PullPolicy := ""
  KernelMappings : List KernelMapping := []
  Modprobe : ModprobeSpec := {}
  deriving DecidableEq, Repr

/-- A `kmmv1beta1.ModuleLoaderSpec`. -/
structure ModuleLoaderSpec where
  Container : ModuleLoaderContainerSpec := {}
  ServiceAccountName : String := ""
  deriving DecidableEq, Repr

/-- A `resource.Quantity`, kept as its value in thousandths of a unit. -/
structure Quantity where
  milli : Nat
  deriving DecidableEq, Repr

/-- The leading decimal digits of a quantity: their value and what follows
them. -/
def parseDigits : List Char → Nat → Nat × List Char
  | [], acc => (acc, [])
  | c :: cs, acc =>
    if c.isDigit then parseDigits cs (acc * 10 + (c.toNat - 48)) else (acc, c :: cs)

/-- The factor, in thousandths, of a quantity suffix (the suffixes of
`resource.Quantity` that have a whole factor in thousandths). -/
def suffixMilli (suffix : String) : Option Nat :=
  if suffix = "" then some 1000
  else if suffix = "m" then some 1
  else if suffix = "k" then some (1000 * 1000)
  else if suffix = "M" then some (1000 * 1000 ^ 2)
  else if suffix = "G" then some (1000 * 1000 ^ 3)
  else if suffix = "Ki" then some (1000 * 1024)
  else if suffix = "Mi" then some (1000 * 1024 ^ 2)
  else if suffix = "Gi" then some (1000 * 1024 ^ 3)
  else none

/-- The function `resource.ParseQuantity` on the quantities written as an
unsigned whole number followed by a suffix; `none` is a parse error. -/
def ParseQuantity (str : String) : Option Quantity :=
  match str.data with
  | [] => none
  | c :: cs =>
    if c.isDigit then
      match parseDigits (c :: cs) 0 with
      | (n, rest) => (suffixMilli (String.mk rest)).map (fun f => { milli := n * f })
    else none

/-- The function `resource.MustParse`; where Go panics the model yields the
zero quantity (the operator parses four constants, none of which panics). -/
def MustParse (str : String) : Quantity :=
  (ParseQuantity str).getD { milli := 0 }

/-- A `corev1.ResourceList`. -/
abbrev ResourceList := List (String × Quantity)

/-- A `corev1.ResourceRequirements`. -/
structure ResourceRequirements where
  Limits : ResourceList := []
  Requests : ResourceList := []
  deriving DecidableEq, Repr

/-- A `kmmv1beta1.DevicePluginContainerSpec`; `Env` is left at its zero
value. -/
structure DevicePluginContainerSpec where
  Args : List String := []
  Command : List String := []
  Env : List (String × String) := []
  Image : String := ""
  ImagePullPolicy : PullPolicy := ""
  Resources : ResourceRequirements := {}
  deriving DecidableEq, Repr

/-- A `kmmv1beta1.DevicePluginSpec`. -/
structure DevicePluginSpec where
  Container : DevicePluginContainerSpec := {}
  ServiceAccountName : String := ""
  deriving DecidableEq, Repr

/-- A `kmmv1beta1.ModuleSpec`; `ImageRepoSecret` is a field the operator leaves
nil. -/
structure ModuleSpec where
  DevicePlugin : Option DevicePluginSpec := none
  ModuleLoader : ModuleLoaderSpec := {}
  ImageRepoSecret : Option String := none
  Selector : Option GoMap := none
  deriving DecidableEq, Repr

/-- A `kmmv1beta1.ModuleStatus`, reduced to a node count. -/
structure ModuleStatus where
  NodesMatchingSelectorNumber : Nat := 0
  deriving DecidableEq, Repr

/-- A `kmmv1beta1.Module`. -/
structure Module where
  ObjectMeta : ObjectMeta := {}
  Spec : ModuleSpec := {}
  Status : ModuleStatus := {}
  deriving DecidableEq, Repr

/-- The promoted field `m.Name`. -/
abbrev Module.Name (m : Module) : String := m.ObjectMeta.Name

/-- The promoted field `m.Namespace`. -/
abbrev Module.Namespace (m : Module) : String := m.ObjectMeta.Namespace

/-- A `types.NamespacedName`, the key of an object in the store. -/
structure NamespacedName where
  Namespace : String
  Name : String
  deriving DecidableEq, Repr

/-- The function `client.ObjectKeyFromObject`. -/
def ObjectKeyFromObject (obj : Module) : NamespacedName :=
  { Namespace := obj.Namespace, Name := obj.Name }

/-! ## Collaborators -/

/-- A `runtime.Scheme`, reduced to what the operator asks it: the kinds
registered for the Go type `DeviceConfig`. -/
structure Scheme where
  deviceConfigKinds : List GroupVersionKind
  deriving DecidableEq, Repr

/-- The package-level `settings.Settings`. -/
structure Settings where
  DevicePluginImage : String
  deriving DecidableEq, Repr

/-- A call made to a collaborator, with its arguments. -/
inductive Call where
  | Get (key : NamespacedName)
  | Create (obj : Module)
  | Patch (obj : Module)
  | StatusPatch (obj : Module)
  | Delete (obj : Module)
  | SetControllerReference (owner : ObjectMeta) (controlled : ObjectMeta)
  deriving DecidableEq, Repr

/-- The `client.Client` interface on Modules, over a store state `σ`.  `Get`
yields the object read or an error; the writes yield an error or nil. -/
structure Client (σ : Type) where
  Get : σ → NamespacedName → σ × Except Error Module
  Create : σ → Module → σ × Option Error
  Patch : σ → Module → σ × Option Error
  StatusPatch : σ → Module → σ × Option Error
  Delete : σ → Module → σ × Option Error

/-- The type `moduleReconciler`, together with the package-level settings its
methods read. -/
structure moduleReconciler (σ : Type) where
  client : Client σ
  scheme : Scheme
  settings : Settings

/-! ## controller-runtime helpers

`SetControllerReference` and `CreateOrPatch` belong to controller-runtime, not
to the operator; they are written out here after that library's
`controllerutil` package, on the object types the operator passes them. -/

/-- The function `validateOwner` of `controllerutil`: a namespaced owner owns
only objects of its own namespace. -/
def validateOwner (owner object : ObjectMeta) : Option Error :=
  if owner.Namespace ≠ "" then
    if object.Namespace = "" then
      some (.new ("cluster-scoped resource must not have a namespace-scoped owner, owner\x27s namespace "
        ++ owner.Namespace))
    else if owner.Namespace ≠ object.Namespace then
      some (.new ("cross-namespace owner references are disallowed, owner\x27s namespace "
        ++ owner.Namespace ++ ", obj\x27s namespace " ++ object.Namespace))
    else none
  else none

/-- The function `apiutil.GVKForObject` on a DeviceConfig: the one kind the
scheme has registered for the type. -/
def GVKForObject (scheme : Scheme) : Except Error GroupVersionKind :=
  match scheme.deviceConfigKinds with
  | [] => .error (.new "no kind is registered for the type v1alpha1.DeviceConfig")
  | [gvk] => .ok gvk
  | _ :: _ :: _ => .error (.new
      "multiple group-version-kinds associated with type *v1alpha1.DeviceConfig, refusing to guess at one")

/-- The function `metav1.GetControllerOf`: the first owner reference flagged as
controller. -/
def GetControllerOf (controlled : ObjectMeta) : Option OwnerReference :=
  controlled.OwnerReferences.find? (fun ref => ref.Controller == some true)

/-- The function `referSameObject` of `controllerutil`. -/
def referSameObject (a b : OwnerReference) : Bool :=
  a.Group == b.Group && a.Kind == b.Kind && a.Name == b.Name

/-- The function `upsertOwnerRef` of `controllerutil` on the list of owner
references: replace the first reference to the same object, or append. -/
def upsertOwnerRef (ref : OwnerReference) : List OwnerReference → List OwnerReference
  | [] => [ref]
  | r :: owners => if referSameObject r ref then ref :: owners else r :: upsertOwnerRef ref owners

/-- The controller reference `SetControllerReference` builds for an owner. -/
def controllerRef (owner : ObjectMeta) (gvk : GroupVersionKind) : OwnerReference :=
  { Group := gvk.Group, Version := gvk.Version, Kind := gvk.Kind,
    Name := owner.Name, UID := owner.UID,
    BlockOwnerDeletion := some true, Controller := some true }

/-- The function `controllerutil.SetControllerReference` with a DeviceConfig as
owner: the metadata of the controlled object after the call, and the error
returned.  On an error the controlled object is not changed. -/
def SetControllerReference (owner controlled : ObjectMeta) (scheme : Scheme) :
    ObjectMeta × Option Error :=
  match validateOwner owner controlled with
  | some err => (controlled, some err)
  | none =>
    match GVKForObject scheme with
    | .error err => (controlled, some err)
    | .ok gvk =>
      let ref := controllerRef owner gvk
      match GetControllerOf controlled with
      | some existing =>
        if !referSameObject existing ref then
          (controlled, some (.alreadyOwned ("Object " ++ controlled.Namespace ++ "/" ++ controlled.Name
            ++ " is already owned by another " ++ existing.Kind ++ " controller " ++ existing.Name)))
        else
          ({ controlled with OwnerReferences := upsertOwnerRef ref controlled.OwnerReferences }, none)
      | none =>
        ({ controlled with OwnerReferences := upsertOwnerRef ref controlled.OwnerReferences }, none)

/-- What a mutate function of `CreateOrPatch` leaves behind: the object it
mutated, its error, the calls it made, and what it changed outside the
object. -/
structure MutateResult (γ : Type) where
  obj : Module
  err : Option Error
  calls : List Call
  out : γ

/-- The function `mutate` of `controllerutil`: run the mutate function and
refuse a change of the object key. -/
def mutate {γ : Type} (f : Module → MutateResult γ) (key : NamespacedName) (obj : Module) :
    MutateResult γ :=
  let mr := f obj
  match mr.err with
  | some _ => mr
  | none =>
    if key ≠ ObjectKeyFromObject mr.obj then
      { mr with err := some (.new "MutateFn cannot mutate object name and/or object namespace") }
    else mr

/-- The type `controllerutil.OperationResult`. -/
inductive OperationResult where
  | None
  | Created
  | Updated
  | UpdatedStatus
  | UpdatedStatusOnly
  deriving DecidableEq, Repr

/-- Two Go maps hold the same entries (`reflect.DeepEqual` on maps). -/
def GoMap.DeepEqual (a b : GoMap) : Bool :=
  (a.map Prod.fst ++ b.map Prod.fst).all (fun k => a.get k == b.get k)

/-- The comparison `reflect.DeepEqual` of two Modules with their status left
out, as `CreateOrPatch` makes it to decide on a patch. -/
def DeepEqualNoStatus (a b : Module) : Bool :=
  a.ObjectMeta == b.ObjectMeta
    && a.Spec.DevicePlugin == b.Spec.DevicePlugin
    && a.Spec.ModuleLoader == b.Spec.ModuleLoader
    && a.Spec.ImageRepoSecret == b.Spec.ImageRepoSecret
    && (match a.Spec.Selector, b.Spec.Selector with
        | none, none => true
        | some x, some y => GoMap.DeepEqual x y
        | _, _ => false)

/-- The outcome of `CreateOrPatch`: the store after it, the calls made in
order, the object, the operation result, the error, and the `out` of the mutate
function when it ran. -/
structure CreateOrPatchResult (σ γ : Type) where
  store : σ
  calls : List Call
  obj : Module
  res : OperationResult
  err : Option Error
  out : Option γ

/-- The function `controllerutil.CreateOrPatch` on a Module. -/
def CreateOrPatch {σ γ : Type} (c : Client σ) (s : σ) (obj : Module)
    (f : Module → MutateResult γ) : CreateOrPatchResult σ γ :=
  let key := ObjectKeyFromObject obj
  match c.Get s key with
  | (s1, .error err) =>
    if !IsNotFoundErr err then
      { store := s1, calls := [.Get key], obj := obj, res := .None, err := some err, out := none }
    else
      let mr := mutate f key obj
      match mr.err with
      | some e =>
        { store := s1, calls := [.Get key] ++ mr.calls, obj := mr.obj, res := .None,
          err := some e, out := some mr.out }
      | none =>
        match c.Create s1 mr.obj with
        | (s2, some e) =>
          { store := s2, calls := [.Get key] ++ mr.calls ++ [.Create mr.obj], obj := mr.obj,
            res := .None, err := some e, out := some mr.out }
        | (s2, none) =>
          { store := s2, calls := [.Get key] ++ mr.calls ++ [.Create mr.obj], obj := mr.obj,
            res := .Created, err := none, out := some mr.out }
  | (s1, .ok before) =>
    let mr := mutate f key before
    match mr.err with
    | some e =>
      { store := s1, calls := [.Get key] ++ mr.calls, obj := mr.obj, res := .None,
        err := some e, out := some mr.out }
    | none =>
      let patched : σ × List Call × OperationResult × Option Error :=
        if !DeepEqualNoStatus before mr.obj then
          match c.Patch s1 mr.obj with
          | (s2, some e) => (s2, [.Patch mr.obj], .None, some e)
          | (s2, none) => (s2, [.Patch mr.obj], .Updated, none)
        else (s1, [], .None, none)
      match patched with
      | (s2, calls, res, some e) =>
        { store := s2, calls := [.Get key] ++ mr.calls ++ calls, obj := mr.obj, res := res,
          err := some e, out := some mr.out }
      | (s2, calls, res, none) =>
        if before.Status ≠ mr.obj.Status then
          match c.StatusPatch s2 mr.obj with
          | (s3, some e) =>
            { store := s3, calls := [.Get key] ++ mr.calls ++ calls ++ [.StatusPatch mr.obj],
              obj := mr.obj, res := res, err := some e, out := some mr.out }
          | (s3, none) =>
            { store := s3, calls := [.Get key] ++ mr.calls ++ calls ++ [.StatusPatch mr.obj],
              obj := mr.obj,
              res := if res = .Updated then .UpdatedStatus else .UpdatedStatusOnly,
              err := none, out := some mr.out }
        else
          { store := s2, calls := [.Get key] ++ mr.calls ++ calls, obj := mr.obj, res := res,
            err := none, out := some mr.out }

/-! ## The Module sub-reconciler (`internal/module/module.go`) -/

/-- The constant `moduleSuffix`. -/
def moduleSuffix : String := "module"

/-- The constant `driverServiceAccount`. -/
def driverServiceAccount : String := "driver-habana"

/-- The constant `devicePluginLimitsCpu`. -/
def devicePluginLimitsCpu : String := "200m"

/-- The constant `devicePluginLimitsMemory`. -/
def devicePluginLimitsMemory : String := "100Mi"

/-- The constant `devicePluginRequestsCpu`. -/
def devicePluginRequestsCpu : String := "100m"

/-- The constant `devicePluginRequestsMemory`. -/
def devicePluginRequestsMemory : String := "50Mi"

/-- The constant `devicePluginServiceAccount`. -/
def devicePluginServiceAccount : String := "device-plugin"

/-- The function `GetModuleName`: `fmt.Sprintf("%s-%s", cr.Name, moduleSuffix)`. -/
def GetModuleName (cr : DeviceConfig) : String :=
  cr.Name ++ "-" ++ moduleSuffix

section
variable {σ : Type}

/-- The method `makeKernelMappings`. -/
def moduleReconciler.makeKernelMappings (_r : moduleReconciler σ) (cr : DeviceConfig) :
    List KernelMapping :=
  let kernelMappings : List KernelMapping := [
    { ContainerImage := cr.Spec.DriverImage ++ ":" ++ cr.Spec.DriverVersion
        ++ "-$\x7bKERNEL_FULL_VERSION\x7d",
      Regexp := "^.*\\.el\\d_?\\d?\\..*$" }
  ]
  kernelMappings

/-- The method `makeModuleLoader`. -/
def moduleReconciler.makeModuleLoader (r : moduleReconciler σ) (cr : DeviceConfig) :
    ModuleLoaderSpec :=
  let moduleLoader : ModuleLoaderSpec :=
    { Container :=
        { ImagePullPolicy := PullAlways,
          KernelMappings := r.makeKernelMappings cr,
          Modprobe :=
            { ModuleName := "habanalabs",
              FirmwarePath := "/opt/lib/firmware/habanalabs" } },
      ServiceAccountName := driverServiceAccount }
  moduleLoader

/-- The method `makeDevicePlugin`. -/
def moduleReconciler.makeDevicePlugin (r : moduleReconciler σ) (_cr : DeviceConfig)
    (deviceType : String) : DevicePluginSpec :=
  let devicePlugin : DevicePluginSpec :=
    { Container :=
        { Args := ["--dev_type", deviceType],
          Command := ["habanalabs-device-plugin"],
          Image := r.settings.DevicePluginImage,
          ImagePullPolicy := PullAlways,
          Resources :=
            { Limits :=
                [("cpu", MustParse devicePluginLimitsCpu),
                 ("memory", MustParse devicePluginLimitsMemory)],
              Requests :=
                [("cpu", MustParse devicePluginRequestsCpu),
                 ("memory", MustParse devicePluginRequestsMemory)] } },
      ServiceAccountName := devicePluginServiceAccount }
  devicePlugin

/-- The outcome of `SetDesiredModule`: the Module and the DeviceConfig after the
call, the error returned, and the calls made to collaborators. -/
structure SetDesiredResult where
  m : Option Module
  cr : DeviceConfig
  err : Option Error
  calls : List Call
  deriving DecidableEq, Repr

/-- The method `SetDesiredModule`.  The selector it assigns into is the map
`GetNodeSelector` returned, so the assignment is also seen in the DeviceConfig
(`withNodeSelector`); the spec is replaced before the owner reference is set
and stays replaced when that fails. -/
def moduleReconciler.SetDesiredModule (r : moduleReconciler σ) (m : Option Module)
    (cr : DeviceConfig) : SetDesiredResult :=
  match m with
  | none => { m := none, cr := cr, err := some (.new "module cannot be nil"), calls := [] }
  | some m =>
    let deviceType := "gaudi"
    let devicePlugin := r.makeDevicePlugin cr deviceType
    let ModuleLoader := r.makeModuleLoader cr
    let selector := cr.GetNodeSelector
    let selector := selector.set ("habana.ai/hpu." ++ deviceType ++ ".present") "true"
    let cr := cr.withNodeSelector selector
    let m : Module :=
      { m with Spec :=
          { DevicePlugin := some devicePlugin,
            ModuleLoader := ModuleLoader,
            Selector := some selector } }
    match SetControllerReference cr.ObjectMeta m.ObjectMeta r.scheme with
    | (_, some err) =>
      { m := some m, cr := cr, err := some err,
        calls := [.SetControllerReference cr.ObjectMeta m.ObjectMeta] }
    | (meta, none) =>
      { m := some { m with ObjectMeta := meta }, cr := cr, err := none,
        calls := [.SetControllerReference cr.ObjectMeta m.ObjectMeta] }

/-- The outcome of a method that talks to the store: the store after it, the
calls made in order, the DeviceConfig after it, and the error returned. -/
structure StoreResult (σ : Type) where
  store : σ
  calls : List Call
  cr : DeviceConfig
  err : Option Error

/-- The mutate function `ReconcileModule` hands to `CreateOrPatch`. -/
def moduleReconciler.mutateFn (r : moduleReconciler σ) (cr : DeviceConfig) (m : Module) :
    MutateResult DeviceConfig :=
  let sd := r.SetDesiredModule (some m) cr
  { obj := sd.m.getD m, err := sd.err, calls := sd.calls, out := sd.cr }

/-- The method `ReconcileModule`. -/
def moduleReconciler.ReconcileModule (r : moduleReconciler σ) (s : σ) (cr : DeviceConfig) :
    StoreResult σ :=
  let key : NamespacedName := { Namespace := cr.Namespace, Name := GetModuleName cr }
  match r.client.Get s key with
  | (s1, got) =>
    let existingModule : Module := match got with
      | .ok found => found
      | .error _ => {}
    let err : Option Error := match got with
      | .ok _ => none
      | .error e => some e
    let exists_ := !IsNotFound err
    if err ≠ none ∧ !IsNotFound err then
      { store := s1, calls := [.Get key], cr := cr, err := err }
    else
      let m : Module :=
        { ObjectMeta := { Name := GetModuleName cr, Namespace := cr.ObjectMeta.Namespace } }
      let m := if exists_ then existingModule else m
      let cop := CreateOrPatch r.client s1 m (r.mutateFn cr)
      match cop.err with
      | some err =>
        { store := cop.store, calls := [.Get key] ++ cop.calls, cr := cop.out.getD cr,
          err := some (.new ("could not create or patch Module: " ++ err.message)) }
      | none =>
        { store := cop.store, calls := [.Get key] ++ cop.calls, cr := cop.out.getD cr,
          err := none }

/-- The method `DeleteModule`. -/
def moduleReconciler.DeleteModule (r : moduleReconciler σ) (s : σ) (cr : DeviceConfig) :
    StoreResult σ :=
  let m : Module :=
    { ObjectMeta := { Name := GetModuleName cr, Namespace := cr.ObjectMeta.Namespace } }
  match r.client.Delete s m with
  | (s1, err) =>
    if err ≠ none ∧ !IsNotFound err then
      { store := s1, calls := [.Delete m], cr := cr,
        err := err.map (fun e => .wrap ("failed to delete Module " ++ m.Name ++ ": " ++ e.message) e) }
    else
      { store := s1, calls := [.Delete m], cr := cr, err := none }

end

/-! ## Names for the parts of a run of `ReconcileModule` -/

/-- The key `ReconcileModule` reads. -/
def moduleKey (cr : DeviceConfig) : NamespacedName :=
  { Namespace := cr.Namespace, Name := GetModuleName cr }

/-- The Module `ReconcileModule` and `DeleteModule` build for a DeviceConfig. -/
def newModule (cr : DeviceConfig) : Module :=
  { ObjectMeta := { Name := GetModuleName cr, Namespace := cr.ObjectMeta.Namespace } }

/-- The error `ReconcileModule` makes of an error of `CreateOrPatch`. -/
def reconcileError (err : Error) : Error :=
  .new ("could not create or patch Module: " ++ err.message)

/-- Whether the result of the first `Get` of `ReconcileModule` is an error
other than not-found. -/
def getFailed : Except Error Module → Bool
  | .ok _ => false
  | .error e => !IsNotFoundErr e

/-- The Module `ReconcileModule` hands to `CreateOrPatch`: the existing one, or
a new one when nothing was found. -/
def startModule (cr : DeviceConfig) : Except Error Module → Module
  | .ok found => found
  | .error _ => newModule cr

/-! ## The top-level reconciler and the node-selector helper

The files `controllers/deviceconfig_controller.go` and
`controllers/nodeselector.go` are not among the sources; their tests are.
This section follows the specification (sections 4.1, 4.2 and 4.4) and the
calls the tests expect. -/

/-- A `ctrl.Result`. -/
structure Result where
  Requeue : Bool := false
  RequeueAfter : Nat := 0
  deriving DecidableEq, Repr

/-- The condition reason `Reconciled`. -/
def ReasonReconciled : String := "Reconciled"

/-- The condition reason `ModuleFailed`. -/
def ReasonModuleFailed : String := "ModuleFailed"

/-- The condition reason `NodeLabelerFailed`. -/
def ReasonNodeLabelerFailed : String := "NodeLabelerFailed"

/-- The condition reason `NodeMetricsFailed`. -/
def ReasonNodeMetricsFailed : String := "NodeMetricsFailed"

/-- The event type `corev1.EventTypeWarning`. -/
def EventTypeWarning : String := "Warning"

/-- A call the top-level reconciler makes to one of its collaborators, with the
DeviceConfig as it is at the call. -/
inductive Step where
  | Get (key : NamespacedName)
  | CheckDeviceConfigForConflictingNodeSelector (dc : DeviceConfig)
  | Event (eventtype : String) (message : String)
  | ContainsDeletionFinalizer (dc : DeviceConfig)
  | AddDeletionFinalizer (dc : DeviceConfig)
  | RemoveDeletionFinalizer (dc : DeviceConfig)
  | ReconcileModule (dc : DeviceConfig)
  | ReconcileNodeLabeler (dc : DeviceConfig)
  | ReconcileNodeMetrics (dc : DeviceConfig)
  | DeleteModule (dc : DeviceConfig)
  | SetConditionsReady (dc : DeviceConfig) (reason : String) (message : String)
  | SetConditionsErrored (dc : DeviceConfig) (reason : String) (message : String)
  deriving DecidableEq, Repr

/-- What a collaborator that may write leaves behind: the store, the
DeviceConfig it was handed (it is handed a pointer), and its error. -/
structure Effect (ω : Type) where
  store : ω
  dc : DeviceConfig
  err : Option Error

/-- Modelled from the spec: the type `Reconciler` of
`controllers/deviceconfig_controller.go`, which is not among the sources.  Its
collaborators are the interfaces the tests mock, over a store `ω`: the read of
the DeviceConfig, the node-selector validator (both only read the store), the
finalizer updater, the three sub-reconcilers with `DeleteModule`, and the
conditions updater.  The spec does not give the wording of the condition
messages; they are the fields `readyMessage` and `erroredMessage`. -/
structure Reconciler (ω : Type) where
  Get : ω → NamespacedName → Except Error DeviceConfig
  CheckDeviceConfigForConflictingNodeSelector : ω → DeviceConfig → Option Error
  ContainsDeletionFinalizer : DeviceConfig → Bool
  AddDeletionFinalizer : ω → DeviceConfig → Effect ω
  RemoveDeletionFinalizer : ω → DeviceConfig → Effect ω
  ReconcileModule : ω → DeviceConfig → Effect ω
  ReconcileNodeLabeler : ω → DeviceConfig → Effect ω
  ReconcileNodeMetrics : ω → DeviceConfig → Effect ω
  DeleteModule : ω → DeviceConfig → Effect ω
  SetConditionsReady : ω → DeviceConfig → String → String → Effect ω
  SetConditionsErrored : ω → DeviceConfig → String → String → Effect ω
  readyMessage : DeviceConfig → String
  erroredMessage : Error → String

/-- The outcome of a reconcile tick: the store after it, the calls made in
order, the result and the error. -/
structure Outcome (ω : Type) where
  store : ω
  steps : List Step
  res : Result
  err : Option Error

section
variable {ω : Type}

/-- Modelled from the spec: what the top-level reconciler does when a
sub-reconciler has failed, which is not among the sources (spec 4.1, step 4c
and the edge policies): record an Errored condition with the reason of the
stage and return the error of the sub-reconciler without requeue; a failure of
the condition update is only logged. -/
def Reconciler.failed (r : Reconciler ω) (e : Effect ω) (err : Error) (reason : String)
    (steps : List Step) : Outcome ω :=
  let c := r.SetConditionsErrored e.store e.dc reason (r.erroredMessage err)
  { store := c.store,
    steps := steps ++ [.SetConditionsErrored e.dc reason (r.erroredMessage err)],
    res := {}, err := some err }

/-- Modelled from the spec: steps 4c and 4d of the normal path of `Reconcile`,
which is not among the sources: the sub-reconcilers in the order Module,
NodeLabeler, NodeMetrics, stopping at the first failure; when all three
succeed, a Ready condition with reason `Reconciled`, and no error. -/
def Reconciler.reconcileChildren (r : Reconciler ω) (w : ω) (dc : DeviceConfig)
    (steps : List Step) : Outcome ω :=
  let m := r.ReconcileModule w dc
  let steps := steps ++ [.ReconcileModule dc]
  match m.err with
  | some err => r.failed m err ReasonModuleFailed steps
  | none =>
    let l := r.ReconcileNodeLabeler m.store m.dc
    let steps := steps ++ [.ReconcileNodeLabeler m.dc]
    match l.err with
    | some err => r.failed l err ReasonNodeLabelerFailed steps
    | none =>
      let n := r.ReconcileNodeMetrics l.store l.dc
      let steps := steps ++ [.ReconcileNodeMetrics l.dc]
      match n.err with
      | some err => r.failed n err ReasonNodeMetricsFailed steps
      | none =>
        let c := r.SetConditionsReady n.store n.dc ReasonReconciled (r.readyMessage n.dc)
        { store := c.store,
          steps := steps ++ [.SetConditionsReady n.dc ReasonReconciled (r.readyMessage n.dc)],
          res := {}, err := none }

/-- Modelled from the spec: the normal path of `Reconcile` (spec 4.1, step 4),
which is not among the sources: the validator first, a conflict giving a
warning event and nothing else; then the finalizer, added when missing; then
the sub-reconcilers. -/
def Reconciler.reconcileNormal (r : Reconciler ω) (w : ω) (dc : DeviceConfig)
    (steps : List Step) : Outcome ω :=
  let steps := steps ++ [.CheckDeviceConfigForConflictingNodeSelector dc]
  match r.CheckDeviceConfigForConflictingNodeSelector w dc with
  | some _ =>
    { store := w,
      steps := steps ++ [.Event EventTypeWarning "Conflicting DeviceConfig NodeSelectors found"],
      res := {}, err := none }
  | none =>
    let steps := steps ++ [.ContainsDeletionFinalizer dc]
    if r.ContainsDeletionFinalizer dc then
      r.reconcileChildren w dc steps
    else
      let a := r.AddDeletionFinalizer w dc
      let steps := steps ++ [.AddDeletionFinalizer dc]
      match a.err with
      | some err => { store := a.store, steps := steps, res := {}, err := some err }
      | none => r.reconcileChildren a.store a.dc steps

/-- Modelled from the spec: the deletion path of `Reconcile` (spec 4.2), which
is not among the sources: nothing without the finalizer; else `DeleteModule`,
a not-found result of which is a success and any other failure of which is
wrapped with "failed to delete DeviceConfig resources" and returned; then the
removal of the finalizer. -/
def Reconciler.reconcileDelete (r : Reconciler ω) (w : ω) (dc : DeviceConfig)
    (steps : List Step) : Outcome ω :=
  let steps := steps ++ [.ContainsDeletionFinalizer dc]
  if !r.ContainsDeletionFinalizer dc then
    { store := w, steps := steps, res := {}, err := none }
  else
    let d := r.DeleteModule w dc
    let steps := steps ++ [.DeleteModule dc]
    if d.err ≠ none ∧ !IsNotFound d.err then
      { store := d.store, steps := steps, res := {},
        err := d.err.map
          (fun err => .wrap ("failed to delete DeviceConfig resources: " ++ err.message) err) }
    else
      let f := r.RemoveDeletionFinalizer d.store d.dc
      let steps := steps ++ [.RemoveDeletionFinalizer d.dc]
      match f.err with
      | some err => { store := f.store, steps := steps, res := {}, err := some err }
      | none => { store := f.store, steps := steps, res := {}, err := none }

/-- Modelled from the spec: the method `Reconcile` of
`controllers/deviceconfig_controller.go` (spec 4.1), which is not among the
sources: fetch the DeviceConfig, not-found being a success and any other
failure an error without requeue; then the deletion path when the
deletion timestamp is set, the normal path otherwise. -/
def Reconciler.Reconcile (r : Reconciler ω) (w : ω) (req : NamespacedName) : Outcome ω :=
  match r.Get w req with
  | .error err =>
    if IsNotFoundErr err then { store := w, steps := [.Get req], res := {}, err := none }
    else { store := w, steps := [.Get req], res := {}, err := some err }
  | .ok dc =>
    if dc.ObjectMeta.DeletionTimestamp ≠ none then r.reconcileDelete w dc [.Get req]
    else r.reconcileNormal w dc [.Get req]

end

/-- Modelled from the spec: the loop of `containsDuplicates`, with the
elements seen so far. -/
def containsDuplicatesFrom (visited : List String) : List String → Bool
  | [] => false
  | e :: rest => if e ∈ visited then true else containsDuplicatesFrom (e :: visited) rest

/-- Modelled from the spec: the helper `containsDuplicates` of
`controllers/nodeselector.go`, which is not among the sources (its tests are).
The spec has it assert uniqueness within a list of node names, false on the
empty list and on "apple", "orange", true on "apple", "apple": the list is
scanned once, the elements seen are remembered, and the answer is true at the
first element seen before. -/
def containsDuplicates (arr : List String) : Bool :=
  containsDuplicatesFrom [] arr

/-! ## Concrete inputs -/

/-- A store client over no state: every `Get` finds nothing, every write
succeeds. -/
def emptyClient : Client Unit :=
  { Get := fun s key => (s, .error (.status StatusReasonNotFound 404 ("modules " ++ key.Name ++ " not found"))),
    Create := fun s _ => (s, none),
    Patch := fun s _ => (s, none),
    StatusPatch := fun s _ => (s, none),
    Delete := fun s _ => (s, none) }

/-- A scheme with the DeviceConfig kind registered. -/
def habanaScheme : Scheme :=
  { deviceConfigKinds := [{ Group := "habana.ai", Version := "v1alpha1", Kind := "DeviceConfig" }] }

/-- A reconciler over `emptyClient`. -/
def sampleReconciler : moduleReconciler Unit :=
  { client := emptyClient, scheme := habanaScheme,
    settings := { DevicePluginImage := "registry/device-plugin:1.0" } }

/-- The DeviceConfig of the unit tests of `SetDesiredModule`. -/
def sampleDeviceConfig : DeviceConfig :=
  { ObjectMeta := { Name := "a-device-config", Namespace := "a-namespace" },
    Spec := { DriverImage := "driver", DriverVersion := "test",
              NodeSelector := some [("label", "test")] } }

/-- The Module of the unit tests of `SetDesiredModule`. -/
def sampleModule : Module :=
  { ObjectMeta := { Name := "a-name", Namespace := "a-namespace" } }

/-- A DeviceConfig without a node selector. -/
def bareDeviceConfig : DeviceConfig :=
  { ObjectMeta := { Name := "a-device-config", Namespace := "a-namespace" } }

/-- A reconciler whose scheme does not know the DeviceConfig type, so that no
owner reference can be set. -/
def unregisteredReconciler : moduleReconciler Unit :=
  { client := emptyClient, scheme := { deviceConfigKinds := [] },
    settings := { DevicePluginImage := "registry/device-plugin:1.0" } }

/-- A store client whose every call fails with "some-error", as in the unit
tests. -/
def failingClient : Client Unit :=
  { Get := fun s _ => (s, .error (.new "some-error")),
    Create := fun s _ => (s, some (.new "some-error")),
    Patch := fun s _ => (s, some (.new "some-error")),
    StatusPatch := fun s _ => (s, some (.new "some-error")),
    Delete := fun s _ => (s, some (.new "some-error")) }

/-- A reconciler over `failingClient`. -/
def failingReconciler : moduleReconciler Unit :=
  { client := failingClient, scheme := habanaScheme,
    settings := { DevicePluginImage := "registry/device-plugin:1.0" } }

/-- A status error with the HTTP code 404 and no reason, as a proxy in front of
the API server may give. -/
def bare404 : Error :=
  .status "" 404 "the server could not find the requested resource"

/-- A store client whose `Get` and `Delete` fail with `bare404`; the other
writes succeed. -/
def bare404Client : Client Unit :=
  { Get := fun s _ => (s, .error bare404),
    Create := fun s _ => (s, none),
    Patch := fun s _ => (s, none),
    StatusPatch := fun s _ => (s, none),
    Delete := fun s _ => (s, some bare404) }

/-- A reconciler over `bare404Client`. -/
def bare404Reconciler : moduleReconciler Unit :=
  { client := bare404Client, scheme := habanaScheme,
    settings := { DevicePluginImage := "registry/device-plugin:1.0" } }

/-- Whether a Module of the store is the one at a key. -/
def atKey (key : NamespacedName) (m : Module) : Bool :=
  m.Name == key.Name && m.Namespace == key.Namespace

/-- A store client over the list of the Modules stored: `Get` looks the key up,
`Create` adds an object whose key is free, `Patch` replaces the object at the
key, `Delete` removes it; a missing object is a not-found error, a taken key
an already-exists error. -/
def listClient : Client (List Module) :=
  { Get := fun s key =>
      match s.find? (atKey key) with
      | some m => (s, .ok m)
      | none => (s, .error (.status StatusReasonNotFound 404 "not found")),
    Create := fun s obj =>
      if s.any (atKey (ObjectKeyFromObject obj)) then
        (s, some (.status "AlreadyExists" 409 "already exists"))
      else (s ++ [obj], none),
    Patch := fun s obj =>
      if s.any (atKey (ObjectKeyFromObject obj)) then
        (s.map (fun m => if atKey (ObjectKeyFromObject obj) m then obj else m), none)
      else (s, some (.status StatusReasonNotFound 404 "not found")),
    StatusPatch := fun s obj =>
      if s.any (atKey (ObjectKeyFromObject obj)) then
        (s.map (fun m => if atKey (ObjectKeyFromObject obj) m then obj else m), none)
      else (s, some (.status StatusReasonNotFound 404 "not found")),
    Delete := fun s obj =>
      if s.any (atKey (ObjectKeyFromObject obj)) then
        (s.filter (fun m => !atKey (ObjectKeyFromObject obj) m), none)
      else (s, some (.status StatusReasonNotFound 404 "not found")) }

/-- A reconciler over `listClient`. -/
def listReconciler : moduleReconciler (List Module) :=
  { client := listClient, scheme := habanaScheme,
    settings := { DevicePluginImage := "registry/device-plugin:1.0" } }

/-- A DeviceConfig whose node selector binds the device-presence label to
"false". -/
def optOutDeviceConfig : DeviceConfig :=
  { ObjectMeta := { Name := "a-device-config", Namespace := "a-namespace" },
    Spec := { NodeSelector := some [("habana.ai/hpu.gaudi.present", "false")] } }

/-- A Module left over from an earlier revision: it has an image-repo secret,
another selector and a status. -/
def staleModule : Module :=
  { ObjectMeta := { Name := "a-name", Namespace := "a-namespace", UID := "1234" },
    Spec := { ImageRepoSecret := some "stale-secret", Selector := some [("old", "label")] },
    Status := { NodesMatchingSelectorNumber := 3 } }

/-- The DeviceConfig of the unit tests of `Reconcile`. -/
def testDeviceConfig : DeviceConfig :=
  { ObjectMeta := { Name := "test" } }

/-- The DeviceConfig of the unit tests of `Reconcile`, deleted. -/
def deletedDeviceConfig : DeviceConfig :=
  { ObjectMeta := { Name := "test", DeletionTimestamp := some 1 } }

/-- The request of the unit tests of `Reconcile`. -/
def testRequest : NamespacedName :=
  { Namespace := "", Name := "test" }

/-- A top-level reconciler made of mocks, as in the unit tests: the read yields
`dc`, the validator `conflict`, the finalizer check `hasFinalizer`, the
sub-reconcilers and `DeleteModule` the errors given.  The store is the log of
the writes made. -/
def mockReconciler (dc : DeviceConfig) (conflict : Option Error) (hasFinalizer : Bool)
    (moduleErr labelerErr metricsErr deleteErr : Option Error) : Reconciler (List String) :=
  { Get := fun _ _ => .ok dc,
    CheckDeviceConfigForConflictingNodeSelector := fun _ _ => conflict,
    ContainsDeletionFinalizer := fun _ => hasFinalizer,
    AddDeletionFinalizer := fun w d => { store := w ++ ["add finalizer"], dc := d, err := none },
    RemoveDeletionFinalizer := fun w d =>
      { store := w ++ ["remove finalizer"], dc := d, err := none },
    ReconcileModule := fun w d => { store := w ++ ["module"], dc := d, err := moduleErr },
    ReconcileNodeLabeler := fun w d => { store := w ++ ["labels"], dc := d, err := labelerErr },
    ReconcileNodeMetrics := fun w d => { store := w ++ ["metrics"], dc := d, err := metricsErr },
    DeleteModule := fun w d => { store := w ++ ["delete module"], dc := d, err := deleteErr },
    SetConditionsReady := fun w d _ _ => { store := w ++ ["ready"], dc := d, err := none },
    SetConditionsErrored := fun w d _ _ => { store := w ++ ["errored"], dc := d, err := none },
    readyMessage := fun _ => "reconciled",
    erroredMessage := fun e => e.message }

/-! ## Lemmas -/

theorem GoMap.get_set (m : GoMap) (k v k' : String) :
    (GoMap.set m k v).get k' = if k' = k then some v else m.get k' := by
  induction m with
  | nil =>
    by_cases h : k = k'
    · subst h; simp [GoMap.set, GoMap.get]
    · have h' : ¬ k' = k := fun e => h e.symm
      simp [GoMap.set, GoMap.get, h, h']
  | cons p t ih =>
    obtain ⟨a, b⟩ := p
    by_cases hak : a = k
    · subst hak
      by_cases h : a = k'
      · subst h; simp [GoMap.set, GoMap.get]
      · have h' : ¬ k' = a := fun e => h e.symm
        simp [GoMap.set, GoMap.get, h, h']
    · by_cases h : a = k'
      · subst h
        have h' : ¬ a = k := hak
        simp [GoMap.set, GoMap.get, hak]
      · simp [GoMap.set, GoMap.get, hak, h, ih]

/-- The label key `SetDesiredModule` formats for the device type "gaudi". -/
theorem presentKey_eq : "habana.ai/hpu." ++ "gaudi" ++ ".present" = "habana.ai/hpu.gaudi.present" := by
  decide

/-- The helper `SetControllerReference` changes nothing but the owner
references. -/
theorem SetControllerReference_frame (owner controlled : ObjectMeta) (scheme : Scheme) :
    ∃ refs, (SetControllerReference owner controlled scheme).1
      = { controlled with OwnerReferences := refs } := by
  unfold SetControllerReference
  split
  · exact ⟨controlled.OwnerReferences, rfl⟩
  · split
    · exact ⟨controlled.OwnerReferences, rfl⟩
    · split
      · dsimp only
        split
        · exact ⟨controlled.OwnerReferences, rfl⟩
        · exact ⟨_, rfl⟩
      · exact ⟨_, rfl⟩

section
variable {σ : Type}

/-- The Module `SetDesiredModule` leaves behind, whatever the outcome of the
owner reference: the spec is the desired one, name and namespace are kept. -/
theorem SetDesiredModule_some (r : moduleReconciler σ) (m : Module) (cr : DeviceConfig) :
    ∃ m', (r.SetDesiredModule (some m) cr).m = some m' ∧
      m'.Spec = { DevicePlugin := some (r.makeDevicePlugin cr "gaudi"),
                  ModuleLoader := r.makeModuleLoader cr,
                  Selector := some (cr.GetNodeSelector.set "habana.ai/hpu.gaudi.present" "true") } ∧
      m'.Name = m.Name ∧ m'.Namespace = m.Namespace := by
  unfold moduleReconciler.SetDesiredModule
  simp only [presentKey_eq]
  split
  · exact ⟨_, rfl, rfl, rfl, rfl⟩
  · rename_i meta heq
    obtain ⟨refs, hrefs⟩ := SetControllerReference_frame
      (cr.withNodeSelector (cr.GetNodeSelector.set "habana.ai/hpu.gaudi.present" "true")).ObjectMeta
      m.ObjectMeta r.scheme
    rw [heq] at hrefs
    simp only at hrefs
    subst hrefs
    exact ⟨_, rfl, rfl, rfl, rfl⟩

end

/-- Appending to a string keeps its first character. -/
theorem head_append (a x : String) (c : Char) (h : a.data.head? = some c) :
    (a ++ x).data.head? = some c := by
  rw [String.data_append]
  cases hd : a.data with
  | nil => rw [hd] at h; simp at h
  | cons d ds => rw [hd] at h; simpa using h

/-- The messages of the errors of `validateOwner` begin with the letter c. -/
theorem validateOwner_message (owner object : ObjectMeta) (e : Error)
    (h : validateOwner owner object = some e) : e.message.data.head? = some 'c' := by
  unfold validateOwner at h
  split at h
  · split at h
    · cases h
      exact head_append _ _ _ (by decide)
    · split at h
      · cases h
        exact head_append _ _ _ (head_append _ _ _ (head_append _ _ _ (by decide)))
      · cases h
  · cases h

/-- No error of `GVKForObject` carries the message of the nil guard of
`SetDesiredModule`. -/
theorem GVKForObject_message (scheme : Scheme) (e : Error)
    (h : GVKForObject scheme = .error e) : e.message ≠ "module cannot be nil" := by
  unfold GVKForObject at h
  split at h
  · cases h; decide
  · cases h
  · cases h; decide

/-- No error of `SetControllerReference` carries the message of the nil
guard of `SetDesiredModule`. -/
theorem SetControllerReference_message (owner controlled : ObjectMeta) (scheme : Scheme)
    (e : Error) (h : (SetControllerReference owner controlled scheme).2 = some e) :
    e.message ≠ "module cannot be nil" := by
  unfold SetControllerReference at h
  split at h
  · rename_i err hv
    simp only [Option.some.injEq] at h
    subst h
    intro hm
    have := validateOwner_message _ _ _ hv
    rw [hm] at this
    revert this
    decide
  · split at h
    · rename_i err hg
      simp only [Option.some.injEq] at h
      subst h
      exact GVKForObject_message _ _ hg
    · split at h
      · dsimp only at h
        split at h
        · simp only [Option.some.injEq] at h
          subst h
          intro hm
          have hO : ∀ a b c d : String, ("Object " ++ a ++ "/" ++ b
              ++ " is already owned by another " ++ c ++ " controller " ++ d).data.head?
              = some 'O' := fun a b c d =>
            head_append _ _ _ (head_append _ _ _ (head_append _ _ _ (head_append _ _ _
              (head_append _ _ _ (head_append _ _ _ (head_append _ _ _ (by decide)))))))
          have hh := congrArg (fun t : String => t.data.head?) hm
          simp only [Error.message] at hh
          rw [hO] at hh
          revert hh
          decide
        · cases h
      · cases h

/-! ## The desired Module (`SetDesiredModule`) -/

section
variable {σ : Type}

/-- C1, as stated, fails: for a DeviceConfig without node selector the call
succeeds, the Module selector has no entry under "hpu.gaudi.present", and it
has the entry "habana.ai/hpu.gaudi.present" = "true", a key that is neither in
the DeviceConfig's selector nor the one the claim names. -/
theorem SetDesiredModule_selector_key_counterexample :
    (sampleReconciler.SetDesiredModule (some sampleModule) bareDeviceConfig).err = none ∧
    ((sampleReconciler.SetDesiredModule (some sampleModule) bareDeviceConfig).m.bind
        (fun m => m.Spec.Selector)).map (fun sel => sel.get "hpu.gaudi.present") = some none ∧
    ((sampleReconciler.SetDesiredModule (some sampleModule) bareDeviceConfig).m.bind
        (fun m => m.Spec.Selector)).map (fun sel => sel.get "habana.ai/hpu.gaudi.present")
      = some (some "true") ∧
    bareDeviceConfig.GetNodeSelector.get "habana.ai/hpu.gaudi.present" = none := by
  decide

/-- C1 (amended): after `SetDesiredModule(m, cr)` on a non-nil Module, the
Module selector is the node selector of `cr` as it was before the call with the
single key "habana.ai/hpu.gaudi.present" bound to "true": that key reads
"true", every other key reads what it read in the node selector, so no other
key is added or changed.  This holds in particular when the call succeeds. -/
theorem SetDesiredModule_selector_exact (r : moduleReconciler σ) (m : Module)
    (cr : DeviceConfig) :
    ∃ m' sel, (r.SetDesiredModule (some m) cr).m = some m' ∧ m'.Spec.Selector = some sel ∧
      ∀ k, sel.get k =
        if k = "habana.ai/hpu.gaudi.present" then some "true" else cr.GetNodeSelector.get k := by
  obtain ⟨m', hm, hspec, -, -⟩ := SetDesiredModule_some r m cr
  refine ⟨m', _, hm, by rw [hspec], ?_⟩
  intro k
  exact GoMap.get_set _ _ _ _

/-- C2, as stated, fails: the node selector of this DeviceConfig holds the pair
"habana.ai/hpu.gaudi.present" = "false", the call succeeds, and the Module
selector binds that key to "true", so the pair is not in it. -/
theorem SetDesiredModule_selector_superset_counterexample :
    (sampleReconciler.SetDesiredModule (some sampleModule) optOutDeviceConfig).err = none ∧
    optOutDeviceConfig.Spec.NodeSelector.map (fun sel => sel.get "habana.ai/hpu.gaudi.present")
      = some (some "false") ∧
    ((sampleReconciler.SetDesiredModule (some sampleModule) optOutDeviceConfig).m.bind
        (fun m => m.Spec.Selector)).map (fun sel => sel.get "habana.ai/hpu.gaudi.present")
      = some (some "true") := by
  decide

/-- C2 (amended): when `SetDesiredModule(m, cr)` succeeds on a non-nil Module,
the Module selector is non-nil (also when the node selector of `cr` is nil or
empty), it binds "habana.ai/hpu.gaudi.present" to "true", and every key/value
pair of the node selector `cr` had before the call, under any other key, is in
it with the same value. -/
theorem SetDesiredModule_selector_superset (r : moduleReconciler σ) (m : Module)
    (cr : DeviceConfig) (_hok : (r.SetDesiredModule (some m) cr).err = none) :
    ∃ m' sel, (r.SetDesiredModule (some m) cr).m = some m' ∧ m'.Spec.Selector = some sel ∧
      sel.get "habana.ai/hpu.gaudi.present" = some "true" ∧
      ∀ sel0 k v, cr.Spec.NodeSelector = some sel0 → k ≠ "habana.ai/hpu.gaudi.present" →
        sel0.get k = some v → sel.get k = some v := by
  obtain ⟨m', hm, hspec, -, -⟩ := SetDesiredModule_some r m cr
  refine ⟨m', _, hm, by rw [hspec], ?_, ?_⟩
  · rw [GoMap.get_set]; simp
  · intro sel0 k v hsel hk hget
    rw [GoMap.get_set, if_neg hk]
    unfold DeviceConfig.GetNodeSelector
    rw [hsel]
    exact hget

/-- Witness of C2 (amended): the DeviceConfig of the unit test, whose pair
"label" = "test" is found in the Module selector. -/
theorem SetDesiredModule_selector_superset_witness :
    (sampleReconciler.SetDesiredModule (some sampleModule) sampleDeviceConfig).err = none ∧
    ∃ m' sel, (sampleReconciler.SetDesiredModule (some sampleModule) sampleDeviceConfig).m = some m'
      ∧ m'.Spec.Selector = some sel ∧ sel.get "label" = some "test" := by
  refine ⟨by decide, ?_⟩
  obtain ⟨m', sel, hm, hsel, -, hall⟩ :=
    SetDesiredModule_selector_superset sampleReconciler sampleModule sampleDeviceConfig (by decide)
  exact ⟨m', sel, hm, hsel, hall [("label", "test")] "label" "test" rfl (by decide) (by decide)⟩

/-- C3: the Module `SetDesiredModule` produces for a DeviceConfig has exactly
one kernel mapping; its container image is the driver image, a colon, the
driver version and the literal text "-$\x7bKERNEL_FULL_VERSION\x7d" (the
placeholder is not expanded), and its regexp is `^.*\.el\d_?\d?\..*$`. -/
theorem SetDesiredModule_kernelMappings (r : moduleReconciler σ) (m : Module)
    (cr : DeviceConfig) :
    ∃ m' km, (r.SetDesiredModule (some m) cr).m = some m' ∧
      m'.Spec.ModuleLoader.Container.KernelMappings = [km] ∧
      km.ContainerImage
        = cr.Spec.DriverImage ++ ":" ++ cr.Spec.DriverVersion ++ "-$\x7bKERNEL_FULL_VERSION\x7d" ∧
      "-$\x7bKERNEL_FULL_VERSION\x7d".data <:+ km.ContainerImage.data ∧
      km.Regexp.data = ['^', '.', '*', '\\', '.', 'e', 'l', '\\', 'd', '_', '?', '\\', 'd', '?',
        '\\', '.', '.', '*', '$'] := by
  obtain ⟨m', hm, hspec, -, -⟩ := SetDesiredModule_some r m cr
  refine ⟨m', _, hm, by rw [hspec]; rfl, rfl, ?_, rfl⟩
  rw [String.data_append]
  exact List.suffix_append _ _

/-- C4: on a nil Module `SetDesiredModule` returns an error whose message
contains "module cannot be nil" and does nothing else: the Module stays nil,
the DeviceConfig is unchanged and no collaborator is called, so no owner
reference is attempted.  On a non-nil Module an error, when there is one, is
not the error of the nil guard and does not have its message. -/
theorem SetDesiredModule_nil_guard (r : moduleReconciler σ) (cr : DeviceConfig) :
    (∃ e, r.SetDesiredModule none cr = { m := none, cr := cr, err := some e, calls := [] } ∧
      Contains e.message "module cannot be nil") ∧
    ∀ (m : Module) (e : Error), (r.SetDesiredModule (some m) cr).err = some e →
      e ≠ .new "module cannot be nil" ∧ e.message ≠ "module cannot be nil" := by
  refine ⟨⟨.new "module cannot be nil", rfl, by decide⟩, ?_⟩
  intro m e he
  have hmsg : e.message ≠ "module cannot be nil" := by
    unfold moduleReconciler.SetDesiredModule at he
    dsimp only at he
    split at he
    · rename_i err heq
      simp only [Option.some.injEq] at he
      subst he
      exact SetControllerReference_message _ _ _ err (by rw [heq])
    · cases he
  refine ⟨?_, hmsg⟩
  intro h
  subst h
  exact hmsg rfl

/-- Witness of C4: with a scheme that does not know the DeviceConfig type the
call on a non-nil Module fails, with another error than that of the nil guard. -/
theorem SetDesiredModule_nil_guard_witness :
    (unregisteredReconciler.SetDesiredModule (some sampleModule) sampleDeviceConfig).err
      = some (.new "no kind is registered for the type v1alpha1.DeviceConfig") ∧
    Error.new "no kind is registered for the type v1alpha1.DeviceConfig"
      ≠ .new "module cannot be nil" :=
  ⟨by decide,
   ((SetDesiredModule_nil_guard unregisteredReconciler sampleDeviceConfig).2 sampleModule
      (.new "no kind is registered for the type v1alpha1.DeviceConfig") (by decide)).1⟩

end


/-! ## Deleting and reconciling the Module -/

section
variable {σ : Type}

/-- The Module name is the DeviceConfig name followed by "-module". -/
theorem GetModuleName_eq (cr : DeviceConfig) : GetModuleName cr = cr.Name ++ "-module" := by
  unfold GetModuleName moduleSuffix
  rw [String.append_assoc]
  rfl

/-- The message `DeleteModule` formats around an error message. -/
theorem deleteMessage_eq (name msg : String) :
    "failed to delete Module " ++ (name ++ "-module") ++ ": " ++ msg
      = "failed to delete Module " ++ name ++ "-module: " ++ msg := by
  have h : "-module" ++ ": " = "-module: " := by decide
  rw [← h]
  simp only [String.append_assoc]

/-- C5: `DeleteModule(cr)` issues one `Delete`, on the Module named
`<cr.Name>-module` in the namespace of `cr`.  It returns nil exactly when that
call succeeded or failed with a not-found error; for any other error `e` of
the call it returns an error that unwraps to `e` and whose message is
"failed to delete Module <cr.Name>-module: " followed by the message of `e`. -/
theorem DeleteModule_errors (r : moduleReconciler σ) (s : σ) (cr : DeviceConfig) :
    ∃ m : Module, m.Name = cr.Name ++ "-module" ∧ m.Namespace = cr.Namespace ∧
      (r.DeleteModule s cr).calls = [.Delete m] ∧
      ((r.DeleteModule s cr).err = none ↔
        ((r.client.Delete s m).2 = none ∨ IsNotFound (r.client.Delete s m).2 = true)) ∧
      ∀ e, (r.client.Delete s m).2 = some e → IsNotFoundErr e = false →
        ∃ w, (r.DeleteModule s cr).err = some w ∧ w.Unwrap = some e ∧
          w.message = "failed to delete Module " ++ cr.Name ++ "-module: " ++ e.message := by
  refine ⟨{ ObjectMeta := { Name := GetModuleName cr, Namespace := cr.ObjectMeta.Namespace } },
    GetModuleName_eq cr, rfl, ?_, ?_, ?_⟩
  · unfold moduleReconciler.DeleteModule
    dsimp only
    split <;> rfl
  · unfold moduleReconciler.DeleteModule
    dsimp only
    cases hd : (r.client.Delete s
        { ObjectMeta := { Name := GetModuleName cr, Namespace := cr.ObjectMeta.Namespace } }).2 with
    | none => simp [IsNotFound]
    | some e =>
      cases hnf : IsNotFoundErr e <;> simp [IsNotFound, hnf]
  · intro e he hnf
    unfold moduleReconciler.DeleteModule
    dsimp only
    rw [he]
    refine ⟨.wrap ("failed to delete Module " ++ (cr.Name ++ "-module") ++ ": " ++ e.message) e,
      ?_, rfl, deleteMessage_eq _ _⟩
    simp [IsNotFound, hnf, GetModuleName_eq]

/-- Witness of C5: a `Delete` failing with "some-error", as in the unit test,
comes back wrapped; a `Delete` failing with a status error of code 404 and no
reason, which is a not-found error, gives nil. -/
theorem DeleteModule_errors_witness :
    (∃ w, (failingReconciler.DeleteModule () sampleDeviceConfig).err = some w ∧
      w.Unwrap = some (.new "some-error") ∧
      w.message = "failed to delete Module a-device-config-module: some-error") ∧
    (bare404Reconciler.DeleteModule () sampleDeviceConfig).err = none := by
  constructor
  · obtain ⟨m, -, -, -, -, h⟩ := DeleteModule_errors failingReconciler () sampleDeviceConfig
    obtain ⟨w, h1, h2, h3⟩ := h (.new "some-error") rfl (by decide)
    exact ⟨w, h1, h2, by rw [h3]; decide⟩
  · obtain ⟨m, -, -, -, hiff, -⟩ := DeleteModule_errors bare404Reconciler () sampleDeviceConfig
    refine hiff.2 (Or.inr ?_)
    show IsNotFound (some bare404) = true
    decide

/-- The mutate function of `ReconcileModule` passes the key check of `mutate`:
`SetDesiredModule` keeps name and namespace. -/
theorem mutate_mutateFn (r : moduleReconciler σ) (cr : DeviceConfig) (obj : Module) :
    mutate (r.mutateFn cr) (ObjectKeyFromObject obj) obj = r.mutateFn cr obj := by
  obtain ⟨m', hm, -, hname, hns⟩ := SetDesiredModule_some r obj cr
  unfold mutate
  dsimp only
  split
  · rfl
  · have hobj : (r.mutateFn cr obj).obj = m' := by
      unfold moduleReconciler.mutateFn
      simp [hm]
    rw [if_neg]
    rw [hobj]
    unfold ObjectKeyFromObject
    simp [hname, hns]

/-- The run of `ReconcileModule` when the first `Get` fails with an error that
is not a not-found error. -/
theorem ReconcileModule_get_failed (r : moduleReconciler σ) (s s1 : σ) (cr : DeviceConfig)
    (e : Error) (hget : r.client.Get s (moduleKey cr) = (s1, .error e))
    (hnf : IsNotFoundErr e = false) :
    r.ReconcileModule s cr = { store := s1, calls := [.Get (moduleKey cr)], cr := cr, err := some e } := by
  unfold moduleReconciler.ReconcileModule
  unfold moduleKey at hget
  simp only [hget]
  simp [IsNotFound, hnf, moduleKey]

/-- The run of `ReconcileModule` when the first `Get` finds nothing. -/
theorem ReconcileModule_not_found (r : moduleReconciler σ) (s s1 : σ) (cr : DeviceConfig)
    (e : Error) (hget : r.client.Get s (moduleKey cr) = (s1, .error e))
    (hnf : IsNotFoundErr e = true) :
    r.ReconcileModule s cr =
      { store := (CreateOrPatch r.client s1 (newModule cr) (r.mutateFn cr)).store,
        calls := [.Get (moduleKey cr)] ++ (CreateOrPatch r.client s1 (newModule cr) (r.mutateFn cr)).calls,
        cr := (CreateOrPatch r.client s1 (newModule cr) (r.mutateFn cr)).out.getD cr,
        err := (CreateOrPatch r.client s1 (newModule cr) (r.mutateFn cr)).err.map reconcileError } := by
  unfold moduleReconciler.ReconcileModule
  unfold moduleKey at hget
  simp only [hget]
  simp only [IsNotFound, hnf, moduleKey, newModule, reconcileError]
  simp only [Bool.not_true, Bool.false_eq_true, and_false, if_false]
  split <;> rename_i h <;> simp [h, reconcileError]

/-- The run of `ReconcileModule` when the first `Get` finds a Module. -/
theorem ReconcileModule_found (r : moduleReconciler σ) (s s1 : σ) (cr : DeviceConfig)
    (found : Module) (hget : r.client.Get s (moduleKey cr) = (s1, .ok found)) :
    r.ReconcileModule s cr =
      { store := (CreateOrPatch r.client s1 found (r.mutateFn cr)).store,
        calls := [.Get (moduleKey cr)] ++ (CreateOrPatch r.client s1 found (r.mutateFn cr)).calls,
        cr := (CreateOrPatch r.client s1 found (r.mutateFn cr)).out.getD cr,
        err := (CreateOrPatch r.client s1 found (r.mutateFn cr)).err.map reconcileError } := by
  unfold moduleReconciler.ReconcileModule
  unfold moduleKey at hget
  simp only [hget]
  simp only [IsNotFound, moduleKey, reconcileError]
  simp only [ne_eq, not_true_eq_false, false_and, if_false, Bool.not_false, if_true]
  split <;> rename_i h <;> simp [h, reconcileError]

/-- The run of `CreateOrPatch` when its `Get` finds nothing: the mutate function
runs and, when it succeeds, one `Create` is issued, whose error is the
result. -/
theorem CreateOrPatch_not_found {γ : Type} (c : Client σ) (s s2 : σ) (obj : Module)
    (f : Module → MutateResult γ) (e2 : Error)
    (hget : c.Get s (ObjectKeyFromObject obj) = (s2, .error e2))
    (hnf : IsNotFoundErr e2 = true) :
    (∀ e, (mutate f (ObjectKeyFromObject obj) obj).err = some e →
      (CreateOrPatch c s obj f).err = some e ∧
      (CreateOrPatch c s obj f).calls
        = [.Get (ObjectKeyFromObject obj)] ++ (mutate f (ObjectKeyFromObject obj) obj).calls) ∧
    ((mutate f (ObjectKeyFromObject obj) obj).err = none →
      (CreateOrPatch c s obj f).err
        = (c.Create s2 (mutate f (ObjectKeyFromObject obj) obj).obj).2 ∧
      (CreateOrPatch c s obj f).calls
        = [.Get (ObjectKeyFromObject obj)] ++ (mutate f (ObjectKeyFromObject obj) obj).calls
            ++ [.Create (mutate f (ObjectKeyFromObject obj) obj).obj]) := by
  constructor
  · intro e he
    unfold CreateOrPatch
    simp only [hget, hnf, he]
    simp
  · intro he
    unfold CreateOrPatch
    simp only [hget, hnf, he]
    cases hc : c.Create s2 (mutate f (ObjectKeyFromObject obj) obj).obj with
    | mk s3 err =>
      cases err <;> simp

/-- The one call `SetDesiredModule` makes on a non-nil Module: the owner
reference, from the DeviceConfig to the Module. -/
theorem SetDesiredModule_calls (r : moduleReconciler σ) (m : Module) (cr : DeviceConfig) :
    (r.SetDesiredModule (some m) cr).calls = [.SetControllerReference cr.ObjectMeta m.ObjectMeta] := by
  have hmeta : ∀ sel, (cr.withNodeSelector sel).ObjectMeta = cr.ObjectMeta := by
    intro sel
    unfold DeviceConfig.withNodeSelector
    split <;> rfl
  unfold moduleReconciler.SetDesiredModule
  dsimp only
  split <;> simp [hmeta]

/-- The run of `ReconcileModule` when both reads, its own and that of
`CreateOrPatch`, find nothing. -/
theorem ReconcileModule_create (r : moduleReconciler σ) (s s1 s2 : σ) (cr : DeviceConfig)
    (e1 e2 : Error)
    (hget1 : r.client.Get s (moduleKey cr) = (s1, .error e1)) (hnf1 : IsNotFoundErr e1 = true)
    (hget2 : r.client.Get s1 (moduleKey cr) = (s2, .error e2)) (hnf2 : IsNotFoundErr e2 = true) :
    (∀ e, (r.SetDesiredModule (some (newModule cr)) cr).err = some e →
      (r.ReconcileModule s cr).err = some (reconcileError e) ∧
      (r.ReconcileModule s cr).calls = [.Get (moduleKey cr), .Get (moduleKey cr),
        .SetControllerReference cr.ObjectMeta (newModule cr).ObjectMeta]) ∧
    ((r.SetDesiredModule (some (newModule cr)) cr).err = none →
      (r.ReconcileModule s cr).err
        = (r.client.Create s2 (r.mutateFn cr (newModule cr)).obj).2.map reconcileError ∧
      (r.ReconcileModule s cr).calls = [.Get (moduleKey cr), .Get (moduleKey cr),
        .SetControllerReference cr.ObjectMeta (newModule cr).ObjectMeta,
        .Create (r.mutateFn cr (newModule cr)).obj]) := by
  have hkey : ObjectKeyFromObject (newModule cr) = moduleKey cr := rfl
  have hcop := CreateOrPatch_not_found r.client s1 s2 (newModule cr) (r.mutateFn cr) e2
    (by rw [hkey]; exact hget2) hnf2
  rw [mutate_mutateFn, hkey] at hcop
  have hcalls : (r.mutateFn cr (newModule cr)).calls
      = [.SetControllerReference cr.ObjectMeta (newModule cr).ObjectMeta] :=
    SetDesiredModule_calls r (newModule cr) cr
  have herr : (r.mutateFn cr (newModule cr)).err
      = (r.SetDesiredModule (some (newModule cr)) cr).err := rfl
  rw [ReconcileModule_not_found r s s1 cr e1 hget1 hnf1]
  constructor
  · intro e he
    obtain ⟨h1, h2⟩ := hcop.1 e (herr.trans he)
    simp only [h1, h2, hcalls]
    simp
  · intro he
    obtain ⟨h1, h2⟩ := hcop.2 (herr.trans he)
    simp only [h1, h2, hcalls]
    simp

/-- C6: `ReconcileModule(cr)` returns an error exactly when its first `Get`
fails with an error other than not-found, or the create-or-patch that follows
fails.  In the first case the error of `Get` is returned as it is and `Get` is
the only call made (no `Create`, no `Patch`); in the second the message is
"could not create or patch Module: " followed by the message of the error of
create-or-patch.  When the reads find nothing and a `Create` is issued that
succeeds, the result is nil. -/
theorem ReconcileModule_errors (r : moduleReconciler σ) (s s1 : σ) (cr : DeviceConfig)
    (got : Except Error Module) (hget : r.client.Get s (moduleKey cr) = (s1, got)) :
    ((r.ReconcileModule s cr).err ≠ none ↔
      (getFailed got = true ∨
        (getFailed got = false ∧
          (CreateOrPatch r.client s1 (startModule cr got) (r.mutateFn cr)).err ≠ none))) ∧
    (∀ e, got = .error e → IsNotFoundErr e = false →
      (r.ReconcileModule s cr).err = some e ∧
      (r.ReconcileModule s cr).calls = [.Get (moduleKey cr)]) ∧
    (getFailed got = false →
      ∀ e, (CreateOrPatch r.client s1 (startModule cr got) (r.mutateFn cr)).err = some e →
        ∃ e', (r.ReconcileModule s cr).err = some e' ∧
          e'.message = "could not create or patch Module: " ++ e.message ∧
          "could not create or patch Module: ".data <+: e'.message.data) ∧
    (∀ e1 s2 e2 obj, got = .error e1 → IsNotFoundErr e1 = true →
      r.client.Get s1 (moduleKey cr) = (s2, .error e2) → IsNotFoundErr e2 = true →
      Call.Create obj ∈ (r.ReconcileModule s cr).calls →
      (r.client.Create s2 obj).2 = none →
      (r.ReconcileModule s cr).err = none) := by
  have hrun : getFailed got = false →
      (r.ReconcileModule s cr).err
        = (CreateOrPatch r.client s1 (startModule cr got) (r.mutateFn cr)).err.map reconcileError := by
    intro hf
    cases got with
    | ok found => rw [ReconcileModule_found r s s1 cr found hget]; rfl
    | error e =>
      have hnf : IsNotFoundErr e = true := by simpa [getFailed] using hf
      rw [ReconcileModule_not_found r s s1 cr e hget hnf]; rfl
  refine ⟨?_, ?_, ?_, ?_⟩
  · cases hf : getFailed got with
    | true =>
      cases got with
      | ok found => simp [getFailed] at hf
      | error e =>
        have hnf : IsNotFoundErr e = false := by simpa [getFailed] using hf
        rw [ReconcileModule_get_failed r s s1 cr e hget hnf]
        simp
    | false =>
      rw [hrun hf]
      cases (CreateOrPatch r.client s1 (startModule cr got) (r.mutateFn cr)).err <;> simp
  · intro e hgot hnf
    subst hgot
    rw [ReconcileModule_get_failed r s s1 cr e hget hnf]
    exact ⟨rfl, rfl⟩
  · intro hf e he
    rw [hrun hf, he]
    refine ⟨reconcileError e, rfl, rfl, ?_⟩
    show _ <+: ("could not create or patch Module: " ++ e.message).data
    rw [String.data_append]
    exact List.prefix_append _ _
  · intro e1 s2 e2 obj hgot hnf1 hget2 hnf2 hmem hcreate
    subst hgot
    obtain ⟨hfail, hok⟩ := ReconcileModule_create r s s1 s2 cr e1 e2 hget hnf1 hget2 hnf2
    cases hsd : (r.SetDesiredModule (some (newModule cr)) cr).err with
    | some e =>
      rw [(hfail e hsd).2] at hmem
      simp at hmem
    | none =>
      obtain ⟨h1, h2⟩ := hok hsd
      rw [h2] at hmem
      have hobj : obj = (r.mutateFn cr (newModule cr)).obj := by simpa using hmem
      rw [h1, ← hobj, hcreate]
      rfl

/-- Witness of C6: with a store that finds nothing and accepts the `Create`,
`ReconcileModule` returns nil after creating the Module, also when the
not-found error is a status error of code 404 without reason; with a store
whose `Get` fails with "some-error", that error comes back as it is. -/
theorem ReconcileModule_errors_witness :
    (sampleReconciler.ReconcileModule () sampleDeviceConfig).err = none ∧
    ((failingReconciler.ReconcileModule () sampleDeviceConfig).err = some (.new "some-error") ∧
      (failingReconciler.ReconcileModule () sampleDeviceConfig).calls
        = [.Get (moduleKey sampleDeviceConfig)]) ∧
    (bare404Reconciler.ReconcileModule () sampleDeviceConfig).err = none :=
  ⟨(ReconcileModule_errors sampleReconciler () () sampleDeviceConfig _ rfl).2.2.2
      (.status StatusReasonNotFound 404 "modules a-device-config-module not found") ()
      (.status StatusReasonNotFound 404 "modules a-device-config-module not found")
      (sampleReconciler.mutateFn sampleDeviceConfig (newModule sampleDeviceConfig)).obj
      rfl (by decide) rfl (by decide) (by decide) (by decide),
   (ReconcileModule_errors failingReconciler () () sampleDeviceConfig _ rfl).2.1
      (.new "some-error") rfl (by decide),
   (ReconcileModule_errors bare404Reconciler () () sampleDeviceConfig _ rfl).2.2.2
      bare404 () bare404
      (bare404Reconciler.mutateFn sampleDeviceConfig (newModule sampleDeviceConfig)).obj
      rfl (by decide) rfl (by decide) (by decide) (by decide)⟩

/-- The store `CreateOrPatch` leaves when its `Get` finds nothing: that of the
`Create` when the mutate function succeeds, that of the `Get` otherwise. -/
theorem CreateOrPatch_not_found_store {γ : Type} (c : Client σ) (s s2 : σ) (obj : Module)
    (f : Module → MutateResult γ) (e2 : Error)
    (hget : c.Get s (ObjectKeyFromObject obj) = (s2, .error e2))
    (hnf : IsNotFoundErr e2 = true) :
    (∀ e, (mutate f (ObjectKeyFromObject obj) obj).err = some e →
      (CreateOrPatch c s obj f).store = s2) ∧
    ((mutate f (ObjectKeyFromObject obj) obj).err = none →
      (CreateOrPatch c s obj f).store
        = (c.Create s2 (mutate f (ObjectKeyFromObject obj) obj).obj).1) := by
  constructor
  · intro e he
    unfold CreateOrPatch
    simp only [hget, hnf, he]
    simp
  · intro he
    unfold CreateOrPatch
    simp only [hget, hnf, he]
    cases hc : c.Create s2 (mutate f (ObjectKeyFromObject obj) obj).obj with
    | mk s3 err =>
      cases err <;> simp

/-- The store `ReconcileModule` leaves when both reads find nothing. -/
theorem ReconcileModule_create_store (r : moduleReconciler σ) (s s1 s2 : σ) (cr : DeviceConfig)
    (e1 e2 : Error)
    (hget1 : r.client.Get s (moduleKey cr) = (s1, .error e1)) (hnf1 : IsNotFoundErr e1 = true)
    (hget2 : r.client.Get s1 (moduleKey cr) = (s2, .error e2)) (hnf2 : IsNotFoundErr e2 = true) :
    (∀ e, (r.SetDesiredModule (some (newModule cr)) cr).err = some e →
      (r.ReconcileModule s cr).store = s2) ∧
    ((r.SetDesiredModule (some (newModule cr)) cr).err = none →
      (r.ReconcileModule s cr).store
        = (r.client.Create s2 (r.mutateFn cr (newModule cr)).obj).1) := by
  have hkey : ObjectKeyFromObject (newModule cr) = moduleKey cr := rfl
  have hcop := CreateOrPatch_not_found_store r.client s1 s2 (newModule cr) (r.mutateFn cr) e2
    (by rw [hkey]; exact hget2) hnf2
  rw [mutate_mutateFn] at hcop
  have herr : (r.mutateFn cr (newModule cr)).err
      = (r.SetDesiredModule (some (newModule cr)) cr).err := rfl
  rw [ReconcileModule_not_found r s s1 cr e1 hget1 hnf1]
  exact ⟨fun e he => hcop.1 e (herr.trans he), fun he => hcop.2 (herr.trans he)⟩

/-- The store and the error `DeleteModule` leaves, from those of the `Delete`
of the client. -/
theorem DeleteModule_store (r : moduleReconciler σ) (s : σ) (cr : DeviceConfig) :
    (r.DeleteModule s cr).store = (r.client.Delete s (newModule cr)).1 ∧
    ((r.client.Delete s (newModule cr)).2 = none → (r.DeleteModule s cr).err = none) := by
  unfold moduleReconciler.DeleteModule newModule
  dsimp only
  constructor
  · split <;> rfl
  · intro h
    simp [h]

/-- C7: `GetModuleName(cr)` is `cr.Name` followed by "-module".  `ReconcileModule`
reads the store of the client at the key (namespace of `cr`, that name): this
`Get` is its first call, and when it fails with an error other than not-found,
its store and error are what `ReconcileModule` leaves.  When the reads find
nothing, every `Create` issued is of an object with that name and namespace;
as soon as `SetDesiredModule` succeeds one such object is handed to the
`Create` of the client, whose store and error are what `ReconcileModule`
leaves, and when it fails nothing is written.  `DeleteModule` makes one call:
it hands an object with that name and namespace to the `Delete` of the client,
whose store it leaves. -/
theorem module_addressing (r : moduleReconciler σ) (s : σ) (cr : DeviceConfig) :
    GetModuleName cr = cr.Name ++ "-module" ∧
    (r.ReconcileModule s cr).calls.head?
      = some (.Get { Namespace := cr.Namespace, Name := GetModuleName cr }) ∧
    (∀ s1 e,
      r.client.Get s { Namespace := cr.Namespace, Name := GetModuleName cr } = (s1, .error e) →
      IsNotFoundErr e = false →
      (r.ReconcileModule s cr).store = s1 ∧ (r.ReconcileModule s cr).err = some e) ∧
    (∀ s1 e1 s2 e2,
      r.client.Get s { Namespace := cr.Namespace, Name := GetModuleName cr } = (s1, .error e1) →
      IsNotFoundErr e1 = true →
      r.client.Get s1 { Namespace := cr.Namespace, Name := GetModuleName cr } = (s2, .error e2) →
      IsNotFoundErr e2 = true →
      (∀ obj, Call.Create obj ∈ (r.ReconcileModule s cr).calls →
        obj.Name = GetModuleName cr ∧ obj.Namespace = cr.Namespace) ∧
      ((r.SetDesiredModule (some (newModule cr)) cr).err = none →
        ∃ obj, obj.Name = GetModuleName cr ∧ obj.Namespace = cr.Namespace ∧
          (r.ReconcileModule s cr).calls.getLast? = some (.Create obj) ∧
          (r.ReconcileModule s cr).store = (r.client.Create s2 obj).1 ∧
          (r.ReconcileModule s cr).err = (r.client.Create s2 obj).2.map reconcileError) ∧
      (∀ e, (r.SetDesiredModule (some (newModule cr)) cr).err = some e →
        (r.ReconcileModule s cr).store = s2)) ∧
    ∃ m : Module, (r.DeleteModule s cr).calls = [.Delete m] ∧
      m.Name = GetModuleName cr ∧ m.Namespace = cr.Namespace ∧
      (r.DeleteModule s cr).store = (r.client.Delete s m).1 ∧
      ((r.client.Delete s m).2 = none → (r.DeleteModule s cr).err = none) := by
  refine ⟨GetModuleName_eq cr, ?_, ?_, ?_, ?_⟩
  · cases hget : r.client.Get s (moduleKey cr) with
    | mk s1 got =>
      cases got with
      | ok found => rw [ReconcileModule_found r s s1 cr found hget]; rfl
      | error e =>
        cases hnf : IsNotFoundErr e with
        | true => rw [ReconcileModule_not_found r s s1 cr e hget hnf]; rfl
        | false => rw [ReconcileModule_get_failed r s s1 cr e hget hnf]; rfl
  · intro s1 e hget hnf
    rw [ReconcileModule_get_failed r s s1 cr e hget hnf]
    exact ⟨rfl, rfl⟩
  · intro s1 e1 s2 e2 hget1 hnf1 hget2 hnf2
    obtain ⟨hfail, hok⟩ := ReconcileModule_create r s s1 s2 cr e1 e2 hget1 hnf1 hget2 hnf2
    obtain ⟨hsfail, hsok⟩ :=
      ReconcileModule_create_store r s s1 s2 cr e1 e2 hget1 hnf1 hget2 hnf2
    obtain ⟨m', hm, -, hname, hns⟩ := SetDesiredModule_some r (newModule cr) cr
    have hobj : (r.mutateFn cr (newModule cr)).obj = m' := by
      unfold moduleReconciler.mutateFn
      simp [hm]
    refine ⟨?_, ?_, hsfail⟩
    · intro obj hmem
      cases hsd : (r.SetDesiredModule (some (newModule cr)) cr).err with
      | some e =>
        rw [(hfail e hsd).2] at hmem
        simp at hmem
      | none =>
        rw [(hok hsd).2] at hmem
        have : obj = m' := by rw [← hobj]; simpa using hmem
        subst this
        exact ⟨hname, hns⟩
    · intro hsd
      refine ⟨m', hname, hns, ?_, ?_, ?_⟩
      · rw [(hok hsd).2, hobj]
        rfl
      · rw [hsok hsd, hobj]
      · rw [(hok hsd).1, hobj]
  · obtain ⟨h1, h2⟩ := DeleteModule_store r s cr
    refine ⟨newModule cr, ?_, rfl, rfl, h1, h2⟩
    unfold moduleReconciler.DeleteModule
    dsimp only
    split <;> rfl

/-- Witness of C7: over a store that is the list of the Modules stored,
`ReconcileModule` for the DeviceConfig "a-device-config" turns the empty store
into the store of one Module, named "a-device-config-module" in its namespace,
and `DeleteModule` turns that store into the empty one. -/
theorem module_addressing_witness :
    ∃ obj : Module, obj.Name = "a-device-config-module" ∧ obj.Namespace = "a-namespace" ∧
      (listReconciler.ReconcileModule [] sampleDeviceConfig).store = [obj] ∧
      (listReconciler.DeleteModule [obj] sampleDeviceConfig).store = [] := by
  obtain ⟨-, -, -, h, -⟩ := module_addressing listReconciler [] sampleDeviceConfig
  obtain ⟨-, hcreate, -⟩ := h []
    (.status StatusReasonNotFound 404 "not found") []
    (.status StatusReasonNotFound 404 "not found")
    rfl (by decide) rfl (by decide)
  obtain ⟨obj, hname, hns, -, hstore, -⟩ := hcreate (by decide)
  obtain ⟨-, -, -, -, m, -, hmname, hmns, hdel, -⟩ :=
    module_addressing listReconciler [obj] sampleDeviceConfig
  refine ⟨obj, by rw [hname]; decide, by rw [hns]; decide, by rw [hstore]; rfl, ?_⟩
  rw [hdel]
  have hkey : atKey (ObjectKeyFromObject m) obj = true := by
    simp [atKey, ObjectKeyFromObject, hmname, hmns, hname, hns]
  show (listClient.Delete [obj] m).1 = []
  simp [listClient, hkey]

end

/-! ## Idempotence of `SetDesiredModule` -/

/-- Assigning the same entry twice is assigning it once. -/
theorem GoMap.set_set (m : GoMap) (k v : String) :
    GoMap.set (GoMap.set m k v) k v = GoMap.set m k v := by
  induction m with
  | nil => simp [GoMap.set]
  | cons p t ih =>
    obtain ⟨a, b⟩ := p
    by_cases h : a = k
    · simp [GoMap.set, h]
    · simp [GoMap.set, h, ih]

/-- A Go map holds the same entries as itself. -/
theorem GoMap.DeepEqual_self (a : GoMap) : GoMap.DeepEqual a a = true := by
  unfold GoMap.DeepEqual
  simp

/-- A Module differs in nothing from itself. -/
theorem DeepEqualNoStatus_self (a : Module) : DeepEqualNoStatus a a = true := by
  unfold DeepEqualNoStatus
  cases h : a.Spec.Selector <;> simp [GoMap.DeepEqual_self]

theorem referSameObject_self (a : OwnerReference) : referSameObject a a = true := by
  simp [referSameObject]

/-- Upserting the same owner reference twice is upserting it once. -/
theorem upsertOwnerRef_idem (ref : OwnerReference) (l : List OwnerReference) :
    upsertOwnerRef ref (upsertOwnerRef ref l) = upsertOwnerRef ref l := by
  induction l with
  | nil => simp [upsertOwnerRef, referSameObject_self]
  | cons r t ih =>
    by_cases h : referSameObject r ref = true
    · simp [upsertOwnerRef, h, referSameObject_self]
    · simp [upsertOwnerRef, h, ih]

/-- After the upsert of a controller reference, it is the controller found,
provided the controller found before, if any, referred to the same object. -/
theorem find_upsertOwnerRef (ref : OwnerReference) (hc : ref.Controller = some true)
    (l : List OwnerReference)
    (h : ∀ x, l.find? (fun r => r.Controller == some true) = some x → referSameObject x ref = true) :
    (upsertOwnerRef ref l).find? (fun r => r.Controller == some true) = some ref := by
  induction l with
  | nil => simp [upsertOwnerRef, hc]
  | cons r t ih =>
    by_cases hs : referSameObject r ref = true
    · simp [upsertOwnerRef, hs, hc]
    · by_cases hr : r.Controller = some true
      · exact absurd (h r (by simp [hr])) hs
      · have hb : (r.Controller == some true) = false := by simp [hr]
        have ht : ∀ x, t.find? (fun r => r.Controller == some true) = some x →
            referSameObject x ref = true := by
          intro x hx
          exact h x (by simp only [List.find?, hb]; exact hx)
        simp only [upsertOwnerRef, hs, List.find?, hb]
        exact ih ht

/-- When `SetControllerReference` fails, the controlled object is as it was. -/
theorem SetControllerReference_error (owner controlled : ObjectMeta) (scheme : Scheme)
    (e : Error) (h : (SetControllerReference owner controlled scheme).2 = some e) :
    (SetControllerReference owner controlled scheme).1 = controlled := by
  unfold SetControllerReference at h ⊢
  split
  · rfl
  · split
    · rfl
    · split
      · dsimp only
        split
        · rfl
        · rename_i h1 _ _ h2 _ _ h3 h4
          rw [h1, h2, h3] at h
          simp [h4] at h
      · rename_i h1 _ _ h2 _ h3
        rw [h1, h2, h3] at h
        simp at h

/-- A second `SetControllerReference` with the same owner succeeds and changes
nothing. -/
theorem SetControllerReference_idem (owner controlled : ObjectMeta) (scheme : Scheme)
    (h : (SetControllerReference owner controlled scheme).2 = none) :
    SetControllerReference owner (SetControllerReference owner controlled scheme).1 scheme
      = ((SetControllerReference owner controlled scheme).1, none) := by
  unfold SetControllerReference at h
  cases hv : validateOwner owner controlled with
  | some err => simp [hv] at h
  | none =>
    cases hg : GVKForObject scheme with
    | error err => simp [hv, hg] at h
    | ok gvk =>
      have hctrl : ∀ x, controlled.OwnerReferences.find? (fun r => r.Controller == some true) = some x →
          referSameObject x (controllerRef owner gvk) = true := by
        intro x hx
        have hx' : GetControllerOf controlled = some x := hx
        simp only [hv, hg, hx'] at h
        by_cases hs : referSameObject x (controllerRef owner gvk) = true
        · exact hs
        · simp [hs] at h
      have hfirst : (SetControllerReference owner controlled scheme).1
          = { controlled with OwnerReferences :=
                upsertOwnerRef (controllerRef owner gvk) controlled.OwnerReferences } := by
        unfold SetControllerReference
        simp only [hv, hg]
        cases hx : GetControllerOf controlled with
        | none => rfl
        | some x => simp [hctrl x hx]
      rw [hfirst]
      generalize hrefs : upsertOwnerRef (controllerRef owner gvk) controlled.OwnerReferences = refs
      have hv2 : validateOwner owner { controlled with OwnerReferences := refs } = none := hv
      have hfind : GetControllerOf { controlled with OwnerReferences := refs }
          = some (controllerRef owner gvk) := by
        rw [← hrefs]
        exact find_upsertOwnerRef _ rfl _ hctrl
      unfold SetControllerReference
      simp only [hv2, hg, hfind]
      rw [← hrefs]
      simp [referSameObject_self, upsertOwnerRef_idem]

section
variable {σ : Type}

/-- The outcome of `SetDesiredModule` on a non-nil Module, written out. -/
theorem SetDesiredModule_eq (r : moduleReconciler σ) (m : Module) (cr : DeviceConfig) :
    r.SetDesiredModule (some m) cr =
      { m := some
          { ObjectMeta := (SetControllerReference cr.ObjectMeta m.ObjectMeta r.scheme).1,
            Spec := { DevicePlugin := some (r.makeDevicePlugin cr "gaudi"),
                      ModuleLoader := r.makeModuleLoader cr,
                      Selector := some (cr.GetNodeSelector.set "habana.ai/hpu.gaudi.present" "true") },
            Status := m.Status },
        cr := cr.withNodeSelector (cr.GetNodeSelector.set "habana.ai/hpu.gaudi.present" "true"),
        err := (SetControllerReference cr.ObjectMeta m.ObjectMeta r.scheme).2,
        calls := [.SetControllerReference cr.ObjectMeta m.ObjectMeta] } := by
  have hmeta : ∀ sel, (cr.withNodeSelector sel).ObjectMeta = cr.ObjectMeta := by
    intro sel
    unfold DeviceConfig.withNodeSelector
    split <;> rfl
  unfold moduleReconciler.SetDesiredModule
  simp only [presentKey_eq, hmeta]
  split
  · rename_i meta err heq
    have h1 := SetControllerReference_error cr.ObjectMeta m.ObjectMeta r.scheme err (by rw [heq])
    rw [heq] at h1
    simp only at h1
    subst h1
    rw [heq]
  · rename_i meta heq
    rw [heq]

/-- What `SetDesiredModule` reads of the DeviceConfig is as it was after the
assignment into the node selector. -/
theorem withNodeSelector_reads (r : moduleReconciler σ) (cr : DeviceConfig) :
    let cr' := cr.withNodeSelector (cr.GetNodeSelector.set "habana.ai/hpu.gaudi.present" "true")
    cr'.ObjectMeta = cr.ObjectMeta ∧
    r.makeModuleLoader cr' = r.makeModuleLoader cr ∧
    cr'.GetNodeSelector.set "habana.ai/hpu.gaudi.present" "true"
      = cr.GetNodeSelector.set "habana.ai/hpu.gaudi.present" "true" ∧
    cr'.withNodeSelector (cr.GetNodeSelector.set "habana.ai/hpu.gaudi.present" "true") = cr' := by
  unfold DeviceConfig.withNodeSelector DeviceConfig.GetNodeSelector
  cases h : cr.Spec.NodeSelector with
  | none => simp [h]
  | some sel =>
    simp [GoMap.set_set, moduleReconciler.makeModuleLoader, moduleReconciler.makeKernelMappings]

/-- C8: `SetDesiredModule` is idempotent.  When `SetDesiredModule(m, cr)`
succeeds on a non-nil Module, a second call on the resulting Module, with the
DeviceConfig as the first call left it or as it was before, succeeds too and
leaves the Module as the first call left it: same spec (selector, module
loader, device plugin), same metadata, so that create-or-patch finds no
difference between the Module before and after the mutate step. -/
theorem SetDesiredModule_idempotent (r : moduleReconciler σ) (m : Module) (cr : DeviceConfig)
    (hok : (r.SetDesiredModule (some m) cr).err = none) :
    ∃ m1, (r.SetDesiredModule (some m) cr).m = some m1 ∧
      ∀ cr2, (cr2 = (r.SetDesiredModule (some m) cr).cr ∨ cr2 = cr) →
        (r.SetDesiredModule (some m1) cr2).err = none ∧
        ∃ m2, (r.SetDesiredModule (some m1) cr2).m = some m2 ∧
          m2.Spec = m1.Spec ∧ m2 = m1 ∧
          DeepEqualNoStatus m1 m2 = true ∧ m1.Status = m2.Status := by
  rw [SetDesiredModule_eq] at hok
  simp only at hok
  have hidem := SetControllerReference_idem cr.ObjectMeta m.ObjectMeta r.scheme hok
  obtain ⟨hmeta, hml, hsel, -⟩ := withNodeSelector_reads r cr
  refine ⟨_, by rw [SetDesiredModule_eq], ?_⟩
  intro cr2 hcr2
  have key : r.SetDesiredModule (some
      { ObjectMeta := (SetControllerReference cr.ObjectMeta m.ObjectMeta r.scheme).1,
        Spec := { DevicePlugin := some (r.makeDevicePlugin cr "gaudi"),
                  ModuleLoader := r.makeModuleLoader cr,
                  Selector := some (cr.GetNodeSelector.set "habana.ai/hpu.gaudi.present" "true") },
        Status := m.Status }) cr2 =
      { m := some
          { ObjectMeta := (SetControllerReference cr.ObjectMeta m.ObjectMeta r.scheme).1,
            Spec := { DevicePlugin := some (r.makeDevicePlugin cr "gaudi"),
                      ModuleLoader := r.makeModuleLoader cr,
                      Selector := some (cr.GetNodeSelector.set "habana.ai/hpu.gaudi.present" "true") },
            Status := m.Status },
        cr := cr2.withNodeSelector (cr2.GetNodeSelector.set "habana.ai/hpu.gaudi.present" "true"),
        err := none,
        calls := [.SetControllerReference cr.ObjectMeta
          (SetControllerReference cr.ObjectMeta m.ObjectMeta r.scheme).1] } := by
    rw [SetDesiredModule_eq]
    rcases hcr2 with h | h
    · rw [SetDesiredModule_eq] at h
      subst h
      simp only [hmeta, hml, hsel, hidem]
      rfl
    · subst h
      simp only [hidem]
  rw [key]
  exact ⟨rfl, _, rfl, rfl, rfl, DeepEqualNoStatus_self _, rfl⟩

/-- Witness of C8: the call of the unit test succeeds, and so does a second
call, which leaves the Module as it was. -/
theorem SetDesiredModule_idempotent_witness :
    (sampleReconciler.SetDesiredModule (some sampleModule) sampleDeviceConfig).err = none ∧
    ∃ m1, (sampleReconciler.SetDesiredModule (some sampleModule) sampleDeviceConfig).m = some m1 ∧
      (sampleReconciler.SetDesiredModule (some m1) sampleDeviceConfig).m = some m1 := by
  refine ⟨by decide, ?_⟩
  obtain ⟨m1, h1, h⟩ :=
    SetDesiredModule_idempotent sampleReconciler sampleModule sampleDeviceConfig (by decide)
  obtain ⟨-, m2, h2, -, h3, -⟩ := h sampleDeviceConfig (Or.inr rfl)
  exact ⟨m1, h1, by rw [h2, h3]⟩

end

/-! ## The module loader and the device plugin -/

section
variable {σ : Type}

/-- C9: in the Module `SetDesiredModule` produces, the module loader has
`Modprobe.ModuleName` "habanalabs", `Modprobe.FirmwarePath`
"/opt/lib/firmware/habanalabs", container `ImagePullPolicy` Always and
`ServiceAccountName` "driver-habana", whatever the DeviceConfig. -/
theorem SetDesiredModule_moduleLoader (r : moduleReconciler σ) (m : Module) (cr : DeviceConfig) :
    ∃ m', (r.SetDesiredModule (some m) cr).m = some m' ∧
      m'.Spec.ModuleLoader.Container.Modprobe.ModuleName = "habanalabs" ∧
      m'.Spec.ModuleLoader.Container.Modprobe.FirmwarePath = "/opt/lib/firmware/habanalabs" ∧
      m'.Spec.ModuleLoader.Container.ImagePullPolicy = PullAlways ∧
      PullAlways = "Always" ∧
      m'.Spec.ModuleLoader.ServiceAccountName = "driver-habana" := by
  rw [SetDesiredModule_eq]
  exact ⟨_, rfl, rfl, rfl, rfl, rfl, rfl⟩

/-- C10: in the Module `SetDesiredModule` produces, the device plugin is
non-nil; its container image is the configured `DevicePluginImage`, its
arguments are "--dev_type" and "gaudi", its command is
"habanalabs-device-plugin", its `ImagePullPolicy` is Always and its
`ServiceAccountName` is "device-plugin".  The device plugin is the same for
every DeviceConfig and every Module. -/
theorem SetDesiredModule_devicePlugin (r : moduleReconciler σ) (m : Module) (cr : DeviceConfig) :
    ∃ m' dp, (r.SetDesiredModule (some m) cr).m = some m' ∧
      m'.Spec.DevicePlugin = some dp ∧
      dp.Container.Image = r.settings.DevicePluginImage ∧
      dp.Container.Args = ["--dev_type", "gaudi"] ∧
      dp.Container.Command = ["habanalabs-device-plugin"] ∧
      dp.Container.ImagePullPolicy = PullAlways ∧
      PullAlways = "Always" ∧
      dp.ServiceAccountName = "device-plugin" ∧
      ∀ (m2 : Module) (cr2 : DeviceConfig),
        ∃ m2', (r.SetDesiredModule (some m2) cr2).m = some m2' ∧
          m2'.Spec.DevicePlugin = some dp := by
  rw [SetDesiredModule_eq]
  refine ⟨_, _, rfl, rfl, rfl, rfl, rfl, rfl, rfl, rfl, ?_⟩
  intro m2 cr2
  rw [SetDesiredModule_eq]
  exact ⟨_, rfl, rfl⟩

end

/-! ## Device-plugin resources and ownership -/

section
variable {σ : Type}

/-- The four quantities `makeDevicePlugin` parses. -/
theorem MustParse_constants :
    MustParse devicePluginRequestsCpu = { milli := 100 } ∧
    MustParse devicePluginRequestsMemory = { milli := 50 * 2 ^ 20 * 1000 } ∧
    MustParse devicePluginLimitsCpu = { milli := 200 } ∧
    MustParse devicePluginLimitsMemory = { milli := 100 * 2 ^ 20 * 1000 } := by
  decide

/-- C11: in the Module `SetDesiredModule` produces, the device-plugin
container has exactly the requests cpu = 100m and memory = 50Mi and the limits
cpu = 200m and memory = 100Mi, with no other resource name; the four
quantities parse (100 and 200 thousandths of a cpu, 50 and 100 times 2^20
bytes), and for cpu and for memory the request is at most the limit. -/
theorem SetDesiredModule_resources (r : moduleReconciler σ) (m : Module) (cr : DeviceConfig) :
    ∃ m' dp, (r.SetDesiredModule (some m) cr).m = some m' ∧
      m'.Spec.DevicePlugin = some dp ∧
      dp.Container.Resources.Requests
        = [("cpu", { milli := 100 }), ("memory", { milli := 50 * 2 ^ 20 * 1000 })] ∧
      dp.Container.Resources.Limits
        = [("cpu", { milli := 200 }), ("memory", { milli := 100 * 2 ^ 20 * 1000 })] ∧
      ParseQuantity "100m" = some { milli := 100 } ∧
      ParseQuantity "50Mi" = some { milli := 50 * 2 ^ 20 * 1000 } ∧
      ParseQuantity "200m" = some { milli := 200 } ∧
      ParseQuantity "100Mi" = some { milli := 100 * 2 ^ 20 * 1000 } ∧
      (∀ name req lim, (name, req) ∈ dp.Container.Resources.Requests →
        (name, lim) ∈ dp.Container.Resources.Limits → req.milli ≤ lim.milli) := by
  rw [SetDesiredModule_eq]
  have hR : (r.makeDevicePlugin cr "gaudi").Container.Resources.Requests
      = [("cpu", { milli := 100 }), ("memory", { milli := 50 * 2 ^ 20 * 1000 })] := by
    unfold moduleReconciler.makeDevicePlugin
    simp only [MustParse_constants.1, MustParse_constants.2.1]
  have hL : (r.makeDevicePlugin cr "gaudi").Container.Resources.Limits
      = [("cpu", { milli := 200 }), ("memory", { milli := 100 * 2 ^ 20 * 1000 })] := by
    unfold moduleReconciler.makeDevicePlugin
    simp only [MustParse_constants.2.2.1, MustParse_constants.2.2.2]
  refine ⟨_, _, rfl, rfl, hR, hL, by decide, by decide, by decide, by decide, ?_⟩
  intro name req lim hreq hlim
  rw [hR] at hreq
  rw [hL] at hlim
  simp only [List.mem_cons, Prod.mk.injEq, List.mem_singleton, List.not_mem_nil, or_false] at hreq hlim
  rcases hreq with ⟨hn, hq⟩ | ⟨hn, hq⟩ <;> rcases hlim with ⟨hn', hq'⟩ | ⟨hn', hq'⟩
  · subst hq hq'; decide
  · rw [hn] at hn'; exact absurd hn' (by decide)
  · rw [hn] at hn'; exact absurd hn' (by decide)
  · subst hq hq'; decide

end

/-- Witness of C11: for the DeviceConfig of the unit test the cpu request, 100m,
is at most the cpu limit, 200m. -/
theorem SetDesiredModule_resources_witness :
    ∃ m' dp, (sampleReconciler.SetDesiredModule (some sampleModule) sampleDeviceConfig).m = some m' ∧
      m'.Spec.DevicePlugin = some dp ∧
      (("cpu", { milli := 100 }) : String × Quantity) ∈ dp.Container.Resources.Requests ∧
      (("cpu", { milli := 200 }) : String × Quantity) ∈ dp.Container.Resources.Limits ∧
      (100 : Nat) ≤ 200 := by
  obtain ⟨m', dp, hm, hdp, hR, hL, -, -, -, -, hle⟩ :=
    SetDesiredModule_resources sampleReconciler sampleModule sampleDeviceConfig
  have h1 : (("cpu", { milli := 100 }) : String × Quantity) ∈ dp.Container.Resources.Requests := by
    rw [hR]; simp
  have h2 : (("cpu", { milli := 200 }) : String × Quantity) ∈ dp.Container.Resources.Limits := by
    rw [hL]; simp
  exact ⟨m', dp, hm, hdp, h1, h2, hle "cpu" _ _ h1 h2⟩

/-- An upsert leaves the reference in the list. -/
theorem mem_upsertOwnerRef (ref : OwnerReference) (l : List OwnerReference) :
    ref ∈ upsertOwnerRef ref l := by
  induction l with
  | nil => simp [upsertOwnerRef]
  | cons r t ih =>
    by_cases h : referSameObject r ref = true
    · simp [upsertOwnerRef, h]
    · simp [upsertOwnerRef, h, ih]

/-- A successful `SetControllerReference`: the scheme gave a kind, the owner
references are the old ones with the controller reference upserted, and that
reference is the controller found afterwards. -/
theorem SetControllerReference_ok (owner controlled : ObjectMeta) (scheme : Scheme)
    (h : (SetControllerReference owner controlled scheme).2 = none) :
    ∃ gvk, GVKForObject scheme = .ok gvk ∧
      (SetControllerReference owner controlled scheme).1
        = { controlled with OwnerReferences :=
              upsertOwnerRef (controllerRef owner gvk) controlled.OwnerReferences } ∧
      GetControllerOf (SetControllerReference owner controlled scheme).1
        = some (controllerRef owner gvk) := by
  unfold SetControllerReference at h
  cases hv : validateOwner owner controlled with
  | some err => simp [hv] at h
  | none =>
    cases hg : GVKForObject scheme with
    | error err => simp [hv, hg] at h
    | ok gvk =>
      have hctrl : ∀ x, controlled.OwnerReferences.find? (fun r => r.Controller == some true) = some x →
          referSameObject x (controllerRef owner gvk) = true := by
        intro x hx
        have hx' : GetControllerOf controlled = some x := hx
        simp only [hv, hg, hx'] at h
        by_cases hs : referSameObject x (controllerRef owner gvk) = true
        · exact hs
        · simp [hs] at h
      have hfirst : (SetControllerReference owner controlled scheme).1
          = { controlled with OwnerReferences :=
                upsertOwnerRef (controllerRef owner gvk) controlled.OwnerReferences } := by
        unfold SetControllerReference
        simp only [hv, hg]
        cases hx : GetControllerOf controlled with
        | none => rfl
        | some x => simp [hctrl x hx]
      refine ⟨gvk, rfl, hfirst, ?_⟩
      rw [hfirst]
      exact find_upsertOwnerRef _ rfl _ hctrl

section
variable {σ : Type}

/-- C12: when `SetDesiredModule(m, cr)` returns no error on a non-nil Module,
the Module carries an owner reference to `cr` (its name, its UID, the kind the
scheme has for DeviceConfig) flagged as controller, and that reference is the
Module's controller; when setting the owner reference fails, the error of
`SetDesiredModule` is that failure. -/
theorem SetDesiredModule_ownerReference (r : moduleReconciler σ) (m : Module)
    (cr : DeviceConfig) :
    ((r.SetDesiredModule (some m) cr).err = none →
      ∃ m' ref gvk, (r.SetDesiredModule (some m) cr).m = some m' ∧
        GVKForObject r.scheme = .ok gvk ∧
        ref ∈ m'.ObjectMeta.OwnerReferences ∧
        GetControllerOf m'.ObjectMeta = some ref ∧
        ref.Controller = some true ∧
        ref.Name = cr.Name ∧ ref.UID = cr.ObjectMeta.UID ∧
        ref.Kind = gvk.Kind ∧ ref.Group = gvk.Group ∧ ref.Version = gvk.Version) ∧
    (∀ e, (SetControllerReference cr.ObjectMeta m.ObjectMeta r.scheme).2 = some e →
      (r.SetDesiredModule (some m) cr).err = some e) := by
  rw [SetDesiredModule_eq]
  constructor
  · intro hok
    obtain ⟨gvk, hg, hfirst, hctrl⟩ :=
      SetControllerReference_ok cr.ObjectMeta m.ObjectMeta r.scheme hok
    refine ⟨_, controllerRef cr.ObjectMeta gvk, gvk, rfl, hg, ?_, hctrl, rfl, rfl, rfl, rfl, rfl, rfl⟩
    show controllerRef cr.ObjectMeta gvk
      ∈ (SetControllerReference cr.ObjectMeta m.ObjectMeta r.scheme).1.OwnerReferences
    rw [hfirst]
    exact mem_upsertOwnerRef _ _
  · intro e he
    exact he

/-- Witness of C12: the call of the unit test succeeds and leaves a controller
reference to "a-device-config"; with a scheme that does not know the
DeviceConfig type, the failure of the owner reference is the error returned. -/
theorem SetDesiredModule_ownerReference_witness :
    (∃ m' ref, (sampleReconciler.SetDesiredModule (some sampleModule) sampleDeviceConfig).m = some m' ∧
      GetControllerOf m'.ObjectMeta = some ref ∧ ref.Name = "a-device-config") ∧
    (unregisteredReconciler.SetDesiredModule (some sampleModule) sampleDeviceConfig).err
      = some (.new "no kind is registered for the type v1alpha1.DeviceConfig") := by
  constructor
  · obtain ⟨m', ref, gvk, hm, -, -, hc, -, hname, -⟩ :=
      (SetDesiredModule_ownerReference sampleReconciler sampleModule sampleDeviceConfig).1
        (by decide)
    exact ⟨m', ref, hm, hc, by rw [hname]; decide⟩
  · exact (SetDesiredModule_ownerReference unregisteredReconciler sampleModule
      sampleDeviceConfig).2 _ (by decide)

/-- C17: `SetDesiredModule` replaces the spec of the Module as a whole and
keeps its identity.  For two non-nil Modules with any prior specs and one
DeviceConfig, the specs after the calls are equal, whether the second call
sees the DeviceConfig as it was or as the first call left it; the spec is
made of `cr` and the device-plugin image setting only, so that fields the
operator does not set (here the image-repo secret) are back at nil; and the
name, namespace, UID and status of each Module are as before. -/
theorem SetDesiredModule_spec_replaced (r : moduleReconciler σ) (m1 m2 : Module)
    (cr : DeviceConfig)
    (_h1 : (r.SetDesiredModule (some m1) cr).err = none)
    (_h2 : (r.SetDesiredModule (some m2) cr).err = none) :
    ∃ m1' m2' m2'',
      (r.SetDesiredModule (some m1) cr).m = some m1' ∧
      (r.SetDesiredModule (some m2) cr).m = some m2' ∧
      (r.SetDesiredModule (some m2) (r.SetDesiredModule (some m1) cr).cr).m = some m2'' ∧
      m1'.Spec = m2'.Spec ∧ m1'.Spec = m2''.Spec ∧
      m1'.Spec = { DevicePlugin := some (r.makeDevicePlugin cr "gaudi"),
                   ModuleLoader := r.makeModuleLoader cr,
                   ImageRepoSecret := none,
                   Selector := some (cr.GetNodeSelector.set "habana.ai/hpu.gaudi.present" "true") } ∧
      m1'.Name = m1.Name ∧ m1'.Namespace = m1.Namespace ∧
      m1'.ObjectMeta.UID = m1.ObjectMeta.UID ∧ m1'.Status = m1.Status ∧
      m2'.Name = m2.Name ∧ m2'.Namespace = m2.Namespace ∧
      m2'.ObjectMeta.UID = m2.ObjectMeta.UID ∧ m2'.Status = m2.Status := by
  obtain ⟨hmeta, hml, hsel, -⟩ := withNodeSelector_reads r cr
  obtain ⟨refs1, hrefs1⟩ := SetControllerReference_frame cr.ObjectMeta m1.ObjectMeta r.scheme
  obtain ⟨refs2, hrefs2⟩ := SetControllerReference_frame cr.ObjectMeta m2.ObjectMeta r.scheme
  simp only [SetDesiredModule_eq]
  refine ⟨_, _, _, rfl, rfl, rfl, rfl, ?_, rfl, ?_, ?_, ?_, rfl, ?_, ?_, ?_, rfl⟩
  · simp only [hml, hsel]
    rfl
  all_goals first
    | (show (SetControllerReference cr.ObjectMeta m1.ObjectMeta r.scheme).1.Name = _
       rw [hrefs1])
    | (show (SetControllerReference cr.ObjectMeta m1.ObjectMeta r.scheme).1.Namespace = _
       rw [hrefs1])
    | (show (SetControllerReference cr.ObjectMeta m1.ObjectMeta r.scheme).1.UID = _
       rw [hrefs1])
    | (show (SetControllerReference cr.ObjectMeta m2.ObjectMeta r.scheme).1.Name = _
       rw [hrefs2])
    | (show (SetControllerReference cr.ObjectMeta m2.ObjectMeta r.scheme).1.Namespace = _
       rw [hrefs2])
    | (show (SetControllerReference cr.ObjectMeta m2.ObjectMeta r.scheme).1.UID = _
       rw [hrefs2])

end

/-! ## The helper `containsDuplicates` -/

/-- The loop of `containsDuplicates` answers true exactly when an element of
the rest was seen before or the rest repeats an element. -/
theorem containsDuplicatesFrom_iff (visited l : List String) :
    containsDuplicatesFrom visited l = true ↔ (∃ x ∈ l, x ∈ visited) ∨ ¬ l.Nodup := by
  induction l generalizing visited with
  | nil => simp [containsDuplicatesFrom]
  | cons e rest ih =>
    unfold containsDuplicatesFrom
    by_cases he : e ∈ visited
    · simp only [he, if_true, true_iff]
      exact Or.inl ⟨e, List.mem_cons_self _ _, he⟩
    · simp only [he, if_false, ih, List.nodup_cons, List.mem_cons]
      constructor
      · rintro (⟨x, hx, hxv | hxv⟩ | hnd)
        · subst hxv
          exact Or.inr (fun h => h.1 hx)
        · exact Or.inl ⟨x, Or.inr hx, hxv⟩
        · exact Or.inr (fun h => hnd h.2)
      · rintro (⟨x, hx | hx, hxv⟩ | hnd)
        · subst hx
          exact absurd hxv he
        · exact Or.inl ⟨x, hx, Or.inr hxv⟩
        · by_cases hmem : e ∈ rest
          · exact Or.inl ⟨e, hmem, Or.inl rfl⟩
          · exact Or.inr (fun h => hnd ⟨hmem, h⟩)

/-- The helper answers true exactly on the lists that repeat an element. -/
theorem containsDuplicates_iff_not_nodup (l : List String) :
    containsDuplicates l = true ↔ ¬ l.Nodup := by
  unfold containsDuplicates
  rw [containsDuplicatesFrom_iff]
  simp

/-- C16: `containsDuplicates(l)` is true exactly when some string stands at two
distinct positions of `l`; it is false on the empty list and on every list of
pairwise distinct strings, it answers as in the unit tests, and its result
does not change under a permutation of `l`. -/
theorem containsDuplicates_spec (l : List String) :
    (containsDuplicates l = true ↔
      ∃ (i j : Fin l.length), i ≠ j ∧ l.get i = l.get j) ∧
    containsDuplicates [] = false ∧
    (l.Nodup → containsDuplicates l = false) ∧
    containsDuplicates ["apple", "orange"] = false ∧
    containsDuplicates ["apple", "apple"] = true ∧
    ∀ l' : List String, l.Perm l' → containsDuplicates l = containsDuplicates l' := by
  refine ⟨?_, rfl, ?_, by decide, by decide, ?_⟩
  · rw [containsDuplicates_iff_not_nodup, List.nodup_iff_injective_get]
    unfold Function.Injective
    constructor
    · intro h
      by_contra hno
      apply h
      intro i j hij
      by_contra hne
      exact hno ⟨i, j, hne, hij⟩
    · rintro ⟨i, j, hne, hij⟩ hinj
      exact hne (hinj hij)
  · intro hnd
    cases h : containsDuplicates l with
    | false => rfl
    | true => exact absurd hnd ((containsDuplicates_iff_not_nodup l).1 h)
  · intro l' hperm
    have h1 := containsDuplicates_iff_not_nodup l
    have h2 := containsDuplicates_iff_not_nodup l'
    have h3 := hperm.nodup_iff
    cases ha : containsDuplicates l <;> cases hb : containsDuplicates l' <;> simp_all

/-- Witness of C16: a list of pairwise distinct node names has no duplicates,
nor has its reversal; a list that repeats "node-a" at positions 0 and 2 has. -/
theorem containsDuplicates_spec_witness :
    containsDuplicates ["node-a", "node-b", "node-c"] = false ∧
    containsDuplicates ["node-a", "node-b", "node-c"]
      = containsDuplicates ["node-c", "node-b", "node-a"] ∧
    containsDuplicates ["node-a", "node-b", "node-a"] = true :=
  ⟨(containsDuplicates_spec ["node-a", "node-b", "node-c"]).2.2.1 (by decide),
   (containsDuplicates_spec ["node-a", "node-b", "node-c"]).2.2.2.2.2 _
     (List.reverse_perm ["node-c", "node-b", "node-a"]),
   (containsDuplicates_spec ["node-a", "node-b", "node-a"]).1.2
     ⟨⟨0, by decide⟩, ⟨2, by decide⟩, by decide, by decide⟩⟩

/-! ## The reconcile tick -/

section
variable {ω : Type}

/-- The run of the sub-reconcilers from a store, a DeviceConfig and the calls
made so far: the four ways it can end. -/
theorem reconcileChildren_runs (r : Reconciler ω) (w : ω) (dc : DeviceConfig)
    (pre : List Step) :
    (∀ e, (r.ReconcileModule w dc).err = some e →
      (r.reconcileChildren w dc pre).steps
        = pre ++ [.ReconcileModule dc,
            .SetConditionsErrored (r.ReconcileModule w dc).dc ReasonModuleFailed
              (r.erroredMessage e)] ∧
      (r.reconcileChildren w dc pre).err = some e ∧
      (r.reconcileChildren w dc pre).res.Requeue = false) ∧
    ((r.ReconcileModule w dc).err = none →
      ∀ e, (r.ReconcileNodeLabeler (r.ReconcileModule w dc).store
          (r.ReconcileModule w dc).dc).err = some e →
      (r.reconcileChildren w dc pre).steps
        = pre ++ [.ReconcileModule dc, .ReconcileNodeLabeler (r.ReconcileModule w dc).dc,
            .SetConditionsErrored
              (r.ReconcileNodeLabeler (r.ReconcileModule w dc).store
                (r.ReconcileModule w dc).dc).dc
              ReasonNodeLabelerFailed (r.erroredMessage e)] ∧
      (r.reconcileChildren w dc pre).err = some e ∧
      (r.reconcileChildren w dc pre).res.Requeue = false) ∧
    ((r.ReconcileModule w dc).err = none →
      (r.ReconcileNodeLabeler (r.ReconcileModule w dc).store
          (r.ReconcileModule w dc).dc).err = none →
      ∀ e, (r.ReconcileNodeMetrics
          (r.ReconcileNodeLabeler (r.ReconcileModule w dc).store
            (r.ReconcileModule w dc).dc).store
          (r.ReconcileNodeLabeler (r.ReconcileModule w dc).store
            (r.ReconcileModule w dc).dc).dc).err = some e →
      (r.reconcileChildren w dc pre).steps
        = pre ++ [.ReconcileModule dc, .ReconcileNodeLabeler (r.ReconcileModule w dc).dc,
            .ReconcileNodeMetrics
              (r.ReconcileNodeLabeler (r.ReconcileModule w dc).store
                (r.ReconcileModule w dc).dc).dc,
            .SetConditionsErrored
              (r.ReconcileNodeMetrics
                (r.ReconcileNodeLabeler (r.ReconcileModule w dc).store
                  (r.ReconcileModule w dc).dc).store
                (r.ReconcileNodeLabeler (r.ReconcileModule w dc).store
                  (r.ReconcileModule w dc).dc).dc).dc
              ReasonNodeMetricsFailed (r.erroredMessage e)] ∧
      (r.reconcileChildren w dc pre).err = some e ∧
      (r.reconcileChildren w dc pre).res.Requeue = false) ∧
    ((r.ReconcileModule w dc).err = none →
      (r.ReconcileNodeLabeler (r.ReconcileModule w dc).store
          (r.ReconcileModule w dc).dc).err = none →
      (r.ReconcileNodeMetrics
          (r.ReconcileNodeLabeler (r.ReconcileModule w dc).store
            (r.ReconcileModule w dc).dc).store
          (r.ReconcileNodeLabeler (r.ReconcileModule w dc).store
            (r.ReconcileModule w dc).dc).dc).err = none →
      (r.reconcileChildren w dc pre).steps
        = pre ++ [.ReconcileModule dc, .ReconcileNodeLabeler (r.ReconcileModule w dc).dc,
            .ReconcileNodeMetrics
              (r.ReconcileNodeLabeler (r.ReconcileModule w dc).store
                (r.ReconcileModule w dc).dc).dc,
            .SetConditionsReady
              (r.ReconcileNodeMetrics
                (r.ReconcileNodeLabeler (r.ReconcileModule w dc).store
                  (r.ReconcileModule w dc).dc).store
                (r.ReconcileNodeLabeler (r.ReconcileModule w dc).store
                  (r.ReconcileModule w dc).dc).dc).dc
              ReasonReconciled
              (r.readyMessage (r.ReconcileNodeMetrics
                (r.ReconcileNodeLabeler (r.ReconcileModule w dc).store
                  (r.ReconcileModule w dc).dc).store
                (r.ReconcileNodeLabeler (r.ReconcileModule w dc).store
                  (r.ReconcileModule w dc).dc).dc).dc)] ∧
      (r.reconcileChildren w dc pre).err = none ∧
      (r.reconcileChildren w dc pre).res.Requeue = false) := by
  refine ⟨?_, ?_, ?_, ?_⟩
  · intro e hm
    unfold Reconciler.reconcileChildren
    simp [hm, Reconciler.failed]
  · intro hm e hl
    unfold Reconciler.reconcileChildren
    simp [hm, hl, Reconciler.failed]
  · intro hm hl e hn
    unfold Reconciler.reconcileChildren
    simp [hm, hl, hn, Reconciler.failed]
  · intro hm hl hn
    unfold Reconciler.reconcileChildren
    simp [hm, hl, hn]

/-- The message of a wrapped deletion failure contains the wrapping text and
the message wrapped. -/
theorem deleteResources_contains (msg : String) :
    Contains ("failed to delete DeviceConfig resources: " ++ msg)
      "failed to delete DeviceConfig resources" ∧
    Contains ("failed to delete DeviceConfig resources: " ++ msg) msg := by
  unfold Contains
  rw [String.data_append]
  constructor
  · have h : "failed to delete DeviceConfig resources: ".data
        = "failed to delete DeviceConfig resources".data ++ ": ".data := by decide
    rw [h, List.append_assoc]
    exact (List.prefix_append _ _).isInfix
  · exact (List.suffix_append _ _).isInfix

/-- C13: on a normal tick (no deletion timestamp) whose validator finds no
conflict and whose finalizer step succeeds, `Reconcile` calls `ReconcileModule`,
`ReconcileNodeLabeler` and `ReconcileNodeMetrics` in that order and stops at
the first that fails: the calls of the tick are then those up to the failed
stage followed by one `SetConditionsErrored` with the reason of that stage
(ModuleFailed, NodeLabelerFailed, NodeMetricsFailed) and nothing else, so no
later sub-reconciler and no `SetConditionsReady`; the error returned is that of
the sub-reconciler, whose message it thus contains, and requeue is false.
When the three succeed the calls end with `SetConditionsReady` with reason
"Reconciled", the error is nil and requeue is false. -/
theorem Reconcile_sub_reconcilers (r : Reconciler ω) (w w1 : ω) (req : NamespacedName)
    (dc dc1 : DeviceConfig) (m l n : Effect ω)
    (hget : r.Get w req = .ok dc)
    (hdel : dc.ObjectMeta.DeletionTimestamp = none)
    (hval : r.CheckDeviceConfigForConflictingNodeSelector w dc = none)
    (hfin : (r.ContainsDeletionFinalizer dc = true ∧ w1 = w ∧ dc1 = dc) ∨
      (r.ContainsDeletionFinalizer dc = false ∧ (r.AddDeletionFinalizer w dc).err = none ∧
        w1 = (r.AddDeletionFinalizer w dc).store ∧ dc1 = (r.AddDeletionFinalizer w dc).dc))
    (hm : r.ReconcileModule w1 dc1 = m)
    (hl : r.ReconcileNodeLabeler m.store m.dc = l)
    (hn : r.ReconcileNodeMetrics l.store l.dc = n) :
    ∃ pre : List Step,
      pre = [.Get req, .CheckDeviceConfigForConflictingNodeSelector dc,
              .ContainsDeletionFinalizer dc]
            ++ (if r.ContainsDeletionFinalizer dc then [] else [.AddDeletionFinalizer dc]) ∧
      (∀ e, m.err = some e →
        (r.Reconcile w req).steps
          = pre ++ [.ReconcileModule dc1,
              .SetConditionsErrored m.dc "ModuleFailed" (r.erroredMessage e)] ∧
        (∃ e', (r.Reconcile w req).err = some e' ∧ e' = e ∧ Contains e'.message e.message) ∧
        (r.Reconcile w req).res.Requeue = false) ∧
      (m.err = none → ∀ e, l.err = some e →
        (r.Reconcile w req).steps
          = pre ++ [.ReconcileModule dc1, .ReconcileNodeLabeler m.dc,
              .SetConditionsErrored l.dc "NodeLabelerFailed" (r.erroredMessage e)] ∧
        (∃ e', (r.Reconcile w req).err = some e' ∧ e' = e ∧ Contains e'.message e.message) ∧
        (r.Reconcile w req).res.Requeue = false) ∧
      (m.err = none → l.err = none → ∀ e, n.err = some e →
        (r.Reconcile w req).steps
          = pre ++ [.ReconcileModule dc1, .ReconcileNodeLabeler m.dc, .ReconcileNodeMetrics l.dc,
              .SetConditionsErrored n.dc "NodeMetricsFailed" (r.erroredMessage e)] ∧
        (∃ e', (r.Reconcile w req).err = some e' ∧ e' = e ∧ Contains e'.message e.message) ∧
        (r.Reconcile w req).res.Requeue = false) ∧
      (m.err = none → l.err = none → n.err = none →
        (r.Reconcile w req).steps
          = pre ++ [.ReconcileModule dc1, .ReconcileNodeLabeler m.dc, .ReconcileNodeMetrics l.dc,
              .SetConditionsReady n.dc "Reconciled" (r.readyMessage n.dc)] ∧
        (r.Reconcile w req).err = none ∧
        (r.Reconcile w req).res.Requeue = false) := by
  have hself : ∀ t : String, Contains t t := fun t => List.infix_refl _
  have hrun : r.Reconcile w req = r.reconcileChildren w1 dc1
      ([.Get req, .CheckDeviceConfigForConflictingNodeSelector dc, .ContainsDeletionFinalizer dc]
        ++ (if r.ContainsDeletionFinalizer dc then [] else [.AddDeletionFinalizer dc])) := by
    unfold Reconciler.Reconcile
    simp only [hget, hdel, ne_eq, not_true_eq_false, if_false]
    unfold Reconciler.reconcileNormal
    simp only [hval]
    rcases hfin with ⟨hc, hw, hd⟩ | ⟨hc, ha, hw, hd⟩
    · subst hw hd
      simp [hc]
    · subst hw hd
      simp [hc, ha]
  obtain ⟨h1, h2, h3, h4⟩ := reconcileChildren_runs r w1 dc1
    ([.Get req, .CheckDeviceConfigForConflictingNodeSelector dc, .ContainsDeletionFinalizer dc]
      ++ (if r.ContainsDeletionFinalizer dc then [] else [.AddDeletionFinalizer dc]))
  subst hn hl hm
  rw [hrun]
  refine ⟨_, rfl, ?_, ?_, ?_, ?_⟩
  · intro e he
    obtain ⟨a, b, c⟩ := h1 e he
    exact ⟨a, ⟨e, b, rfl, hself _⟩, c⟩
  · intro hm e he
    obtain ⟨a, b, c⟩ := h2 hm e he
    exact ⟨a, ⟨e, b, rfl, hself _⟩, c⟩
  · intro hm hl e he
    obtain ⟨a, b, c⟩ := h3 hm hl e he
    exact ⟨a, ⟨e, b, rfl, hself _⟩, c⟩
  · intro hm hl hn
    exact h4 hm hl hn

/-- Witness of C13: the unit tests.  With a failing `ReconcileModule` the calls
stop there, with the condition ModuleFailed and the error "some-error"; with
three successes they end with the condition Reconciled and no error. -/
theorem Reconcile_sub_reconcilers_witness :
    ((mockReconciler testDeviceConfig none false (some (.new "some-error")) none none none).Reconcile
        [] testRequest).steps
      = [.Get testRequest, .CheckDeviceConfigForConflictingNodeSelector testDeviceConfig,
          .ContainsDeletionFinalizer testDeviceConfig, .AddDeletionFinalizer testDeviceConfig,
          .ReconcileModule testDeviceConfig,
          .SetConditionsErrored testDeviceConfig "ModuleFailed" "some-error"] ∧
    ((mockReconciler testDeviceConfig none false none none none none).Reconcile
        [] testRequest).steps
      = [.Get testRequest, .CheckDeviceConfigForConflictingNodeSelector testDeviceConfig,
          .ContainsDeletionFinalizer testDeviceConfig, .AddDeletionFinalizer testDeviceConfig,
          .ReconcileModule testDeviceConfig, .ReconcileNodeLabeler testDeviceConfig,
          .ReconcileNodeMetrics testDeviceConfig,
          .SetConditionsReady testDeviceConfig "Reconciled" "reconciled"] := by
  constructor
  · obtain ⟨pre, hpre, h, -⟩ := Reconcile_sub_reconcilers
      (mockReconciler testDeviceConfig none false (some (.new "some-error")) none none none)
      [] ["add finalizer"] testRequest testDeviceConfig testDeviceConfig _ _ _
      rfl rfl rfl (Or.inr ⟨rfl, rfl, rfl, rfl⟩) rfl rfl rfl
    rw [(h (.new "some-error") rfl).1, hpre]
    rfl
  · obtain ⟨pre, hpre, -, -, -, h⟩ := Reconcile_sub_reconcilers
      (mockReconciler testDeviceConfig none false none none none none)
      [] ["add finalizer"] testRequest testDeviceConfig testDeviceConfig _ _ _
      rfl rfl rfl (Or.inr ⟨rfl, rfl, rfl, rfl⟩) rfl rfl rfl
    rw [(h rfl rfl rfl).1, hpre]
    rfl

/-- The deletion path without the finalizer. -/
theorem reconcileDelete_absent (r : Reconciler ω) (w : ω) (dc : DeviceConfig) (pre : List Step)
    (hc : r.ContainsDeletionFinalizer dc = false) :
    r.reconcileDelete w dc pre
      = { store := w, steps := pre ++ [.ContainsDeletionFinalizer dc], res := {}, err := none } := by
  unfold Reconciler.reconcileDelete
  simp [hc]

/-- The deletion path with the finalizer when `DeleteModule` fails with an
error other than not-found. -/
theorem reconcileDelete_failed (r : Reconciler ω) (w : ω) (dc : DeviceConfig) (pre : List Step)
    (e : Error) (hc : r.ContainsDeletionFinalizer dc = true)
    (hd : (r.DeleteModule w dc).err = some e) (hnf : IsNotFoundErr e = false) :
    r.reconcileDelete w dc pre
      = { store := (r.DeleteModule w dc).store,
          steps := pre ++ [.ContainsDeletionFinalizer dc, .DeleteModule dc],
          res := {},
          err := some (.wrap ("failed to delete DeviceConfig resources: " ++ e.message) e) } := by
  unfold Reconciler.reconcileDelete
  simp [hc, hd, IsNotFound, hnf]

/-- The deletion path with the finalizer when `DeleteModule` returns nil or a
not-found error. -/
theorem reconcileDelete_removed (r : Reconciler ω) (w : ω) (dc : DeviceConfig) (pre : List Step)
    (hc : r.ContainsDeletionFinalizer dc = true)
    (hok : (r.DeleteModule w dc).err = none ∨ IsNotFound (r.DeleteModule w dc).err = true) :
    r.reconcileDelete w dc pre
      = { store := (r.RemoveDeletionFinalizer (r.DeleteModule w dc).store
            (r.DeleteModule w dc).dc).store,
          steps := pre ++ [.ContainsDeletionFinalizer dc, .DeleteModule dc,
            .RemoveDeletionFinalizer (r.DeleteModule w dc).dc],
          res := {},
          err := (r.RemoveDeletionFinalizer (r.DeleteModule w dc).store
            (r.DeleteModule w dc).dc).err } := by
  have hcond : ¬ ((r.DeleteModule w dc).err ≠ none ∧ (!IsNotFound (r.DeleteModule w dc).err) = true) := by
    rintro ⟨h1, h2⟩
    rcases hok with h | h
    · exact h1 h
    · simp [h] at h2
  unfold Reconciler.reconcileDelete
  simp only [hc, Bool.not_true, Bool.false_eq_true, if_false, hcond]
  split <;> rename_i h <;> simp [h]

/-- C14, as stated, fails: on this deletion tick the finalizer is present and
`DeleteModule` returns an error, a not-found one; `RemoveDeletionFinalizer` is
called all the same and `Reconcile` returns no error, since a not-found result
of `DeleteModule` counts as success. -/
theorem Reconcile_deletion_counterexample :
    ((mockReconciler deletedDeviceConfig none true none none none
        (some (.status StatusReasonNotFound 404 "modules test-module not found"))).DeleteModule
        [] deletedDeviceConfig).err
      = some (.status StatusReasonNotFound 404 "modules test-module not found") ∧
    Step.RemoveDeletionFinalizer deletedDeviceConfig ∈
      ((mockReconciler deletedDeviceConfig none true none none none
        (some (.status StatusReasonNotFound 404 "modules test-module not found"))).Reconcile
        [] testRequest).steps ∧
    ((mockReconciler deletedDeviceConfig none true none none none
        (some (.status StatusReasonNotFound 404 "modules test-module not found"))).Reconcile
        [] testRequest).err = none := by
  decide

/-- C14 (amended): on a deletion tick (deletion timestamp set) without the
finalizer, `Reconcile` calls neither `DeleteModule` nor
`RemoveDeletionFinalizer`, leaves the store as it is and returns no error,
requeue false.  With the finalizer and a `DeleteModule` that fails with an
error other than not-found, `RemoveDeletionFinalizer` is not called, the error
message contains "failed to delete DeviceConfig resources" and the message of
the failure, and requeue is false.  With the finalizer and a `DeleteModule`
that returns nil or a not-found error, `RemoveDeletionFinalizer` is called
after it, and it is called in no other case; `AddDeletionFinalizer` is never
called on such a tick. -/
theorem Reconcile_deletion (r : Reconciler ω) (w : ω) (req : NamespacedName)
    (dc : DeviceConfig) (t : Nat)
    (hget : r.Get w req = .ok dc)
    (hdel : dc.ObjectMeta.DeletionTimestamp = some t) :
    (r.ContainsDeletionFinalizer dc = false →
      (r.Reconcile w req).steps = [.Get req, .ContainsDeletionFinalizer dc] ∧
      (r.Reconcile w req).store = w ∧
      (r.Reconcile w req).err = none ∧
      (r.Reconcile w req).res.Requeue = false) ∧
    (r.ContainsDeletionFinalizer dc = true → ∀ e, (r.DeleteModule w dc).err = some e →
      IsNotFoundErr e = false →
      (r.Reconcile w req).steps = [.Get req, .ContainsDeletionFinalizer dc, .DeleteModule dc] ∧
      (∃ e', (r.Reconcile w req).err = some e' ∧
        Contains e'.message "failed to delete DeviceConfig resources" ∧
        Contains e'.message e.message) ∧
      (r.Reconcile w req).res.Requeue = false) ∧
    (r.ContainsDeletionFinalizer dc = true →
      ((r.DeleteModule w dc).err = none ∨ IsNotFound (r.DeleteModule w dc).err = true) →
      (r.Reconcile w req).steps
        = [.Get req, .ContainsDeletionFinalizer dc, .DeleteModule dc,
            .RemoveDeletionFinalizer (r.DeleteModule w dc).dc] ∧
      (r.Reconcile w req).err
        = (r.RemoveDeletionFinalizer (r.DeleteModule w dc).store (r.DeleteModule w dc).dc).err ∧
      (r.Reconcile w req).res.Requeue = false) ∧
    (∀ d, Step.RemoveDeletionFinalizer d ∈ (r.Reconcile w req).steps →
      r.ContainsDeletionFinalizer dc = true ∧
      ((r.DeleteModule w dc).err = none ∨ IsNotFound (r.DeleteModule w dc).err = true) ∧
      (r.Reconcile w req).steps
        = [.Get req, .ContainsDeletionFinalizer dc, .DeleteModule dc,
            .RemoveDeletionFinalizer (r.DeleteModule w dc).dc]) ∧
    (∀ d, Step.AddDeletionFinalizer d ∉ (r.Reconcile w req).steps) := by
  have hrun : r.Reconcile w req = r.reconcileDelete w dc [.Get req] := by
    unfold Reconciler.Reconcile
    simp [hget, hdel]
  rw [hrun]
  cases hc : r.ContainsDeletionFinalizer dc with
  | false =>
    rw [reconcileDelete_absent r w dc _ hc]
    simp
  | true =>
    by_cases hok : (r.DeleteModule w dc).err = none ∨ IsNotFound (r.DeleteModule w dc).err = true
    · rw [reconcileDelete_removed r w dc _ hc hok]
      refine ⟨by simp, ?_, ?_, ?_, by simp⟩
      · intro _ e he hnf
        rcases hok with h | h
        · rw [h] at he; cases he
        · rw [he] at h
          simp [IsNotFound, hnf] at h
      · intro _ _
        exact ⟨rfl, rfl, rfl⟩
      · intro d _
        exact ⟨rfl, hok, rfl⟩
    · cases hd : (r.DeleteModule w dc).err with
      | none => exact absurd (Or.inl hd) hok
      | some e =>
        have hnf : IsNotFoundErr e = false := by
          cases h : IsNotFoundErr e with
          | false => rfl
          | true => exact absurd (Or.inr (by rw [hd]; exact h)) hok
        rw [reconcileDelete_failed r w dc _ e hc hd hnf]
        refine ⟨by simp, ?_, ?_, by simp, by simp⟩
        · intro _ e0 he0 _
          cases he0
          exact ⟨rfl, ⟨_, rfl, deleteResources_contains e.message⟩, rfl⟩
        · intro _ h
          rw [hd] at hok
          exact absurd h hok

/-- Witness of C14 (amended): the unit tests on the deleted DeviceConfig.  With
the finalizer and `DeleteModule` failing with "something went wrong" the tick
stops before the removal of the finalizer; when `DeleteModule` succeeds the
removal follows it. -/
theorem Reconcile_deletion_witness :
    ((mockReconciler deletedDeviceConfig none true none none none
        (some (.new "something went wrong"))).Reconcile [] testRequest).steps
      = [.Get testRequest, .ContainsDeletionFinalizer deletedDeviceConfig,
          .DeleteModule deletedDeviceConfig] ∧
    ((mockReconciler deletedDeviceConfig none true none none none none).Reconcile
        [] testRequest).steps
      = [.Get testRequest, .ContainsDeletionFinalizer deletedDeviceConfig,
          .DeleteModule deletedDeviceConfig, .RemoveDeletionFinalizer deletedDeviceConfig] :=
  ⟨((Reconcile_deletion (mockReconciler deletedDeviceConfig none true none none none
        (some (.new "something went wrong"))) [] testRequest deletedDeviceConfig 1 rfl rfl).2.1
      rfl (.new "something went wrong") rfl (by decide)).1,
   ((Reconcile_deletion (mockReconciler deletedDeviceConfig none true none none none none)
        [] testRequest deletedDeviceConfig 1 rfl rfl).2.2.1 rfl (Or.inl rfl)).1⟩

/-- C15: on a normal tick whose node-selector validator returns an error,
`Reconcile` records a warning event whose message contains "Conflicting
DeviceConfig NodeSelectors found" and returns no error, requeue false; the
calls of the tick are the read, the validator and the event, so that no
finalizer is added and no sub-reconciler is called, and the store is as it
was. -/
theorem Reconcile_conflict (r : Reconciler ω) (w : ω) (req : NamespacedName)
    (dc : DeviceConfig) (e : Error)
    (hget : r.Get w req = .ok dc)
    (hdel : dc.ObjectMeta.DeletionTimestamp = none)
    (hval : r.CheckDeviceConfigForConflictingNodeSelector w dc = some e) :
    ∃ msg, (r.Reconcile w req).steps
        = [.Get req, .CheckDeviceConfigForConflictingNodeSelector dc, .Event "Warning" msg] ∧
      Contains msg "Conflicting DeviceConfig NodeSelectors found" ∧
      (r.Reconcile w req).res.Requeue = false ∧
      (r.Reconcile w req).err = none ∧
      (r.Reconcile w req).store = w ∧
      (∀ d, Step.AddDeletionFinalizer d ∉ (r.Reconcile w req).steps) := by
  have hrun : r.Reconcile w req =
      { store := w,
        steps := [.Get req, .CheckDeviceConfigForConflictingNodeSelector dc,
          .Event "Warning" "Conflicting DeviceConfig NodeSelectors found"],
        res := {}, err := none } := by
    unfold Reconciler.Reconcile
    simp only [hget, hdel, ne_eq, not_true_eq_false, if_false]
    unfold Reconciler.reconcileNormal
    simp only [hval]
    rfl
  rw [hrun]
  exact ⟨_, rfl, List.infix_refl _, rfl, rfl, rfl, by simp⟩

/-- Witness of C15: the unit test of the conflicting DeviceConfig; the log of
store writes stays empty. -/
theorem Reconcile_conflict_witness :
    ((mockReconciler testDeviceConfig (some (.new "an error")) false none none none none).Reconcile
        [] testRequest).store = [] ∧
    ((mockReconciler testDeviceConfig (some (.new "an error")) false none none none none).Reconcile
        [] testRequest).err = none := by
  obtain ⟨_, -, -, -, herr, hstore, -⟩ := Reconcile_conflict
    (mockReconciler testDeviceConfig (some (.new "an error")) false none none none none)
    [] testRequest testDeviceConfig (.new "an error") rfl rfl rfl
  exact ⟨hstore, herr⟩

end

/-- Witness of C17: a new Module and a stale one, with an image-repo secret and
another selector, get the same spec, without the secret. -/
theorem SetDesiredModule_spec_replaced_witness :
    staleModule.Spec.ImageRepoSecret = some "stale-secret" ∧
    ∃ m1' m2',
      (sampleReconciler.SetDesiredModule (some sampleModule) sampleDeviceConfig).m = some m1' ∧
      (sampleReconciler.SetDesiredModule (some staleModule) sampleDeviceConfig).m = some m2' ∧
      m1'.Spec = m2'.Spec ∧ m2'.Spec.ImageRepoSecret = none ∧
      m2'.ObjectMeta.UID = "1234" := by
  refine ⟨rfl, ?_⟩
  obtain ⟨m1', m2', -, h1, h2, -, hs, -, hspec, -, -, -, -, -, -, huid, -⟩ :=
    SetDesiredModule_spec_replaced sampleReconciler sampleModule staleModule sampleDeviceConfig
      (by decide) (by decide)
  exact ⟨m1', m2', h1, h2, hs, by rw [← hs, hspec], by rw [huid]; rfl⟩

end Habana
